import Mathlib

/-!
Formal model of the `mcp-creator` pipeline of `iblai/iblai-mcp`
(`src/mcp-creator/har_parser.py`, `src/mcp-creator/mcp_generator.py`,
`src/mcp-creator/cli.py`), as a shallow embedding in Lean 4.

Conventions of the embedding:
* Python strings are Lean `String`s; all text the program handles is ASCII,
  so `str.lower`/`str.upper` are modelled as ASCII case maps.
* Python `dict`s are association lists in insertion order (CPython dicts
  preserve insertion order; assignment to an existing key keeps its position).
* Python `set`s have a hash-dependent enumeration order; wherever the source
  enumerates a set (`list(hosts)[0]`, `for host in hosts`), the model takes an
  explicit enumeration-order parameter `perm` applied to the insertion-ordered
  list of the set's elements.
* `json.loads` of a text field is modelled by an oracle field (`textJson`)
  carried alongside the raw text in the input record: `none` means the text is
  not valid JSON, `some v` is its parsed value.  JSON numbers are modelled as
  integers (no claim depends on float/int distinctions).
* File-system and process effects of the CLI are abstracted into outcome
  values (`LoadOutcome`, `GenOutcome`); the generator is modelled as the pure
  function from the service model to the list of (relative path, content) of
  the files it writes.
-/

set_option maxRecDepth 16384

namespace MCP

/-! ## ASCII string utilities (models of the Python `str` operations used) -/

/-- Model of `str.lower` for one ASCII character. -/
def asciiLower (c : Char) : Char :=
  if 65 ≤ c.toNat && c.toNat ≤ 90 then Char.ofNat (c.toNat + 32) else c

/-- Model of `str.upper` for one ASCII character. -/
def asciiUpper (c : Char) : Char :=
  if 97 ≤ c.toNat && c.toNat ≤ 122 then Char.ofNat (c.toNat - 32) else c

/-- Model of Python `str.lower` (inputs are ASCII). -/
def pyLower (s : String) : String := ⟨s.data.map asciiLower⟩

/-- Model of Python `str.upper` (inputs are ASCII). -/
def pyUpper (s : String) : String := ⟨s.data.map asciiUpper⟩

/-- `needle` occurs as a contiguous sublist of the character list. -/
def listContainsSub (needle : List Char) : List Char → Bool
  | [] => needle.isEmpty
  | c :: rest => needle.isPrefixOf (c :: rest) || listContainsSub needle rest

/-- Model of Python `sub in s` (substring test). -/
def strContains (s sub : String) : Bool := listContainsSub sub.data s.data

/-- Model of Python `s.startswith(p)`. -/
def strHasPre (p s : String) : Bool := p.data.isPrefixOf s.data

/-- Model of Python `s.endswith(p)`. -/
def strHasSuf (p s : String) : Bool := p.data.reverse.isPrefixOf s.data.reverse

/-- Model of Python `s[n:]` (code-point slicing). -/
def strDrop (s : String) (n : Nat) : String := ⟨s.data.drop n⟩

/-- Model of Python `s[:-n]` written as dropping a suffix of length `n`. -/
def strDropRight (s : String) (n : Nat) : String := ⟨s.data.take (s.data.length - n)⟩

/-- Model of Python `str.replace(old, new)` on character lists: replaces all
non-overlapping occurrences left to right.  `fuel` bounds the recursion; it is
always called with `fuel = length + 1` and `old` nonempty, which makes the
fuel sufficient. -/
def replaceAux (old new : List Char) : Nat → List Char → List Char
  | 0, s => s
  | _ + 1, [] => []
  | fuel + 1, c :: rest =>
    if old.isPrefixOf (c :: rest) then
      new ++ replaceAux old new fuel ((c :: rest).drop old.length)
    else
      c :: replaceAux old new fuel rest

/-- Model of Python `str.replace(old, new)` (with nonempty `old`). -/
def pyReplace (s old new : String) : String :=
  ⟨replaceAux old.data new.data (s.data.length + 1) s.data⟩

/-- Replace one character by another everywhere (Python `str.replace` with
single-character arguments). -/
def pyReplaceChar (s : String) (a b : Char) : String :=
  ⟨s.data.map (fun c => if c = a then b else c)⟩

/-- Model of Python `s.strip(ch)` for a single strip character. -/
def pyStripChar (ch : Char) (s : String) : String :=
  ⟨((s.data.dropWhile (fun c => c = ch)).reverse.dropWhile (fun c => c = ch)).reverse⟩

/-- ASCII decimal digit (model of `\d` in the source's regexes; the traces the
tool handles are ASCII). -/
def pyIsDigit (c : Char) : Bool := 48 ≤ c.toNat && c.toNat ≤ 57

/-- Lower-case hex digit, plus upper-case (the source compiles its UUID regex
with `re.IGNORECASE`). -/
def isHexDigitCI (c : Char) : Bool :=
  pyIsDigit c || (97 ≤ c.toNat && c.toNat ≤ 102) || (65 ≤ c.toNat && c.toNat ≤ 70)

/-- Regex `\w` character: `[a-zA-Z0-9_]` (inputs are ASCII). -/
def isWordChar (c : Char) : Bool :=
  (97 ≤ c.toNat && c.toNat ≤ 122) || (65 ≤ c.toNat && c.toNat ≤ 90) || pyIsDigit c || c = '_'

/-- `[a-z0-9]` test used by `_host_to_name` after lower-casing. -/
def isLowerAlnum (c : Char) : Bool :=
  (97 ≤ c.toNat && c.toNat ≤ 122) || pyIsDigit c

/-- Split a character list at the first occurrence of `needle`, returning the
part before it and the part after it (the needle removed). -/
def breakAtSeq (needle : List Char) : List Char → Option (List Char × List Char)
  | [] => if needle.isEmpty then some ([], []) else none
  | c :: rest =>
    if needle.isPrefixOf (c :: rest) then some ([], (c :: rest).drop needle.length)
    else match breakAtSeq needle rest with
      | none => none
      | some (a, b) => some (c :: a, b)

/-- Split a character list on every occurrence of a separator character
(model of Python `str.split(sep)` for 1-character separators). -/
def splitOnChar (sep : Char) : List Char → List (List Char)
  | [] => [[]]
  | c :: rest =>
    let r := splitOnChar sep rest
    if c = sep then [] :: r
    else match r with
      | [] => [[c]]
      | h :: t => (c :: h) :: t

/-! ## Data model (`har_parser.py` dataclasses) -/

/-- A loosely typed Python example value, as stored in
`RequestParam.example_value` (the parser only ever stores a string or
`None`; the generator also discriminates ints and bools, kept here so the
generator's `isinstance` chain can be embedded faithfully). -/
inductive PyVal where
  | vnone
  | vstr (s : String)
  | vint (n : Int)
  | vbool (b : Bool)
deriving DecidableEq, Repr

/-- A JSON value, as produced by `json.loads`.  Numbers are modelled as
integers; objects are association lists in key order. -/
inductive JValue where
  | jnull
  | jbool (b : Bool)
  | jnum (n : Int)
  | jstr (s : String)
  | jarr (items : List JValue)
  | jobj (entries : List (String × JValue))

/-- `RequestParam` dataclass of `har_parser.py`. -/
structure RequestParam where
  name : String
  param_type : String
  example_value : PyVal := PyVal.vnone
  required : Bool := false
  description : String := ""
deriving DecidableEq, Repr

/-- `AuthPattern` dataclass of `har_parser.py`. -/
structure AuthPattern where
  auth_type : String
  header_name : String := ""
  example_value : String := ""
  location : String := "header"
deriving DecidableEq, Repr

/-- `APIEndpoint` dataclass of `har_parser.py`. -/
structure APIEndpoint where
  method : String
  path : String
  base_url : String
  full_url : String
  query_params : List RequestParam := []
  path_params : List RequestParam := []
  headers : List (String × String) := []
  request_body : Option JValue := none
  response_example : Option JValue := none
  response_status : Int := 200
  content_type : String := "application/json"
  description : String := ""

/-- `ServiceInfo` dataclass of `har_parser.py`. -/
structure ServiceInfo where
  name : String
  base_url : String
  description : String := ""
  auth_patterns : List AuthPattern := []
  endpoints : List APIEndpoint := []

/-! ## Input records (the HAR entry shape the parser consumes, §6 of the spec) -/

/-- One name/value header pair of a HAR request or response. -/
structure Header where
  name : String
  value : String
deriving DecidableEq, Repr

/-- `postData` of a HAR request.  `textJson` is the oracle for
`json.loads(text)`: `none` iff the text is not valid JSON. -/
structure PostData where
  mimeType : String := ""
  text : String := ""
  textJson : Option JValue := none
  params : List Header := []

/-- `content` of a HAR response, with the same `json.loads` oracle. -/
structure RespContent where
  text : String := ""
  mimeType : String := ""
  textJson : Option JValue := none

/-- `request` object of a HAR entry. -/
structure HarRequest where
  url : String
  method : String := "GET"
  headers : List Header := []
  postData : Option PostData := none

/-- `response` object of a HAR entry.  The parser never reads the response
headers; they are part of the input format and are used below only to state
the spec's (claimed) classifier rule. -/
structure HarResponse where
  status : Int := 200
  headers : List Header := []
  content : Option RespContent := none

/-- One HAR entry. -/
structure HarEntry where
  request : HarRequest
  response : HarResponse

/-! ## `urllib.parse` models (`urlparse`, `parse_qs`) -/

/-- Result of `urllib.parse.urlparse` restricted to the components the source
reads (`scheme`, `netloc`, `path`, `query`). -/
structure ParsedUrl where
  scheme : String := ""
  netloc : String := ""
  path : String := ""
  query : String := ""
deriving DecidableEq, Repr

/-- Model of `urllib.parse.urlparse` for the absolute `scheme://netloc/path?query#fragment`
URLs found in HAR captures (and for scheme-less strings, which Python treats
as all-path). -/
def urlparse (url : String) : ParsedUrl :=
  let cs := (splitOnChar '#' url.data).headD []
  match breakAtSeq "://".data cs with
  | some (schemeCs, rest) =>
    let netlocCs := rest.takeWhile (fun c => ¬ (c = '/' || c = '?'))
    let rest2 := rest.dropWhile (fun c => ¬ (c = '/' || c = '?'))
    let pathCs := rest2.takeWhile (fun c => ¬ c = '?')
    let queryCs := (rest2.dropWhile (fun c => ¬ c = '?')).drop 1
    { scheme := ⟨schemeCs⟩, netloc := ⟨netlocCs⟩, path := ⟨pathCs⟩, query := ⟨queryCs⟩ }
  | none =>
    let pathCs := cs.takeWhile (fun c => ¬ c = '?')
    let queryCs := (cs.dropWhile (fun c => ¬ c = '?')).drop 1
    { scheme := "", netloc := "", path := ⟨pathCs⟩, query := ⟨queryCs⟩ }

/-- Hex digit value for percent-decoding. -/
def hexVal (c : Char) : Option Nat :=
  if 48 ≤ c.toNat && c.toNat ≤ 57 then some (c.toNat - 48)
  else if 97 ≤ c.toNat && c.toNat ≤ 102 then some (c.toNat - 87)
  else if 65 ≤ c.toNat && c.toNat ≤ 70 then some (c.toNat - 55)
  else none

/-- Model of `urllib.parse.unquote_plus` (ASCII percent-decoding, `+` → space). -/
def unquotePlusAux : List Char → List Char
  | [] => []
  | '%' :: h1 :: h2 :: rest =>
    match hexVal h1, hexVal h2 with
    | some a, some b => Char.ofNat (16 * a + b) :: unquotePlusAux rest
    | _, _ => '%' :: unquotePlusAux (h1 :: h2 :: rest)
  | '+' :: rest => ' ' :: unquotePlusAux rest
  | c :: rest => c :: unquotePlusAux rest

/-- Model of `urllib.parse.unquote_plus`. -/
def unquotePlus (s : String) : String := ⟨unquotePlusAux s.data⟩

/-- Append a value under a key in an insertion-ordered multi-map
(the accumulation `parse_qs` performs). -/
def qsAdd (acc : List (String × List String)) (k v : String) : List (String × List String) :=
  match acc with
  | [] => [(k, [v])]
  | (k', vs) :: rest => if k' = k then (k', vs ++ [v]) :: rest else (k', vs) :: qsAdd rest k v

/-- Model of `urllib.parse.parse_qs` with its default arguments: split the
query on `&`; chunks that are empty, have no `=`, or have an empty value are
skipped (`keep_blank_values=False`); names and values are percent-decoded;
the result maps each name (in first-appearance order) to its values in order. -/
def parse_qs (query : String) : List (String × List String) :=
  (splitOnChar '&' query.data).foldl
    (fun acc chunk =>
      match breakAtSeq ['='] chunk with
      | none => acc
      | some (name, value) =>
        if value.isEmpty then acc
        else qsAdd acc (unquotePlus ⟨name⟩) (unquotePlus ⟨value⟩))
    []

/-! ## Generic insertion-ordered dict / set helpers -/

/-- Lookup in an insertion-ordered association list (Python `dict` lookup /
`in` test). -/
def dictGet (l : List (String × α)) (k : String) : Option α :=
  match l with
  | [] => none
  | (k', v) :: rest => if k' = k then some v else dictGet rest k

/-- Python `d[k] = v` when `k` is already present: the value is replaced in
place, keeping the key's original position. -/
def dictSet (l : List (String × α)) (k : String) (v : α) : List (String × α) :=
  match l with
  | [] => [(k, v)]
  | (k', v') :: rest => if k' = k then (k', v) :: rest else (k', v') :: dictSet rest k v

/-- Update the value stored under `k` (used for the endpoint-merge step). -/
def dictUpdate (l : List (String × α)) (k : String) (f : α → α) : List (String × α) :=
  match l with
  | [] => []
  | (k', v) :: rest => if k' = k then (k', f v) :: rest else (k', v) :: dictUpdate rest k f

/-- Insertion-ordered set insertion (Python `set.add`, remembering first
insertion order; enumeration order is supplied separately). -/
def setAdd (l : List String) (x : String) : List String :=
  if l.contains x then l else l ++ [x]

/-! ## `HARParser` constant tables -/

/-- `HARParser.SKIP_HEADERS` (browser-specific headers dropped by
`_normalize_headers`). -/
def SKIP_HEADERS : List String :=
  [ "accept-encoding", "accept-language", "cache-control", "pragma",
    "sec-ch-ua", "sec-ch-ua-mobile", "sec-ch-ua-platform",
    "sec-fetch-dest", "sec-fetch-mode", "sec-fetch-site", "sec-gpc",
    "user-agent", "upgrade-insecure-requests", "connection",
    ":method", ":path", ":scheme", ":authority", ":status",
    "priority", "dnt", "te", "if-none-match", "if-modified-since" ]

/-- `HARParser.AUTH_HEADERS` (header name → scheme tag). -/
def AUTH_HEADERS : List (String × String) :=
  [ ("authorization", "bearer"),
    ("x-api-key", "api_key"),
    ("api-key", "api_key"),
    ("x-auth-token", "custom_header"),
    ("x-access-token", "custom_header") ]

/-- `HARParser.STATIC_EXTENSIONS`. -/
def STATIC_EXTENSIONS : List String :=
  [ ".js", ".css", ".png", ".jpg", ".jpeg", ".gif", ".svg", ".ico",
    ".woff", ".woff2", ".ttf", ".eot", ".map", ".webp", ".avif" ]

/-- The static directory segments checked by `_is_static_resource`. -/
def STATIC_PATHS : List String :=
  [ "/_next/static", "/static/", "/assets/", "/public/" ]

/-! ## `HARParser` record classification -/

/-- `HARParser._is_static_resource`: the lower-cased URL path ends in a static
file extension or contains a static directory segment. -/
def is_static_resource (url : String) : Bool :=
  let path := pyLower (urlparse url).path
  STATIC_EXTENSIONS.any (fun ext => strHasSuf ext path) ||
  STATIC_PATHS.any (fun sp => strContains path sp)

/-- `HARParser._is_api_call`: the lower-cased path contains an API segment, or
some *request* header named `accept` or `content-type` has a value containing
`application/json`.  (The source receives only the request's header list;
response headers are never examined.) -/
def is_api_call (url : String) (headers : List Header) : Bool :=
  let path := pyLower (urlparse url).path
  strContains path "/api/" || strContains path "/v1/" || strContains path "/v2/" ||
  headers.any (fun h =>
    pyLower h.name = "accept" && strContains (pyLower h.value) "application/json") ||
  headers.any (fun h =>
    pyLower h.name = "content-type" && strContains (pyLower h.value) "application/json")

/-! ## `HARParser._extract_auth_patterns` -/

/-- The masking rule of `_extract_auth_patterns`: a value whose lower-casing
starts with `bearer ` is rendered as the fixed placeholder, anything else as
`<api_key>`. -/
def maskAuthValue (value : String) : String :=
  if strHasPre "bearer " (pyLower value) then "Bearer <token>" else "<api_key>"

/-- The cookie names that make a `Cookie` header count as authentication. -/
def AUTH_COOKIE_MARKERS : List String := ["session", "auth", "token", "jwt"]

/-- A header is a `Cookie` header whose value contains one of the auth cookie
markers (case-insensitively). -/
def isAuthCookieHeader (h : Header) : Bool :=
  pyLower h.name = "cookie" &&
  AUTH_COOKIE_MARKERS.any (fun m => strContains (pyLower h.value) m)

/-- `HARParser._extract_auth_patterns`: one pattern per header whose
lower-cased name is in `AUTH_HEADERS` (masked value, original-case name),
followed by at most one cookie pattern for the first matching `Cookie`
header. -/
def extract_auth_patterns (headers : List Header) : List AuthPattern :=
  (headers.filterMap (fun h =>
      match dictGet AUTH_HEADERS (pyLower h.name) with
      | some tag => some { auth_type := tag, header_name := h.name,
                           example_value := maskAuthValue h.value, location := "header" }
      | none => none)) ++
  (if headers.any isAuthCookieHeader then
     [{ auth_type := "cookie", header_name := "Cookie",
        example_value := "<session_cookie>", location := "cookie" }]
   else [])

/-! ## `HARParser._extract_path_params` -/

/-- Try to read `n` hex digits (case-insensitive) from the front of a list. -/
def takeHex : Nat → List Char → Option (List Char × List Char)
  | 0, l => some ([], l)
  | _ + 1, [] => none
  | n + 1, c :: rest =>
    if isHexDigitCI c then
      match takeHex n rest with
      | some (a, b) => some (c :: a, b)
      | none => none
    else none

/-- Expect a literal dash at the front of a list. -/
def takeDash : List Char → Option (List Char × List Char)
  | '-' :: rest => some (['-'], rest)
  | _ => none

/-- Try to match the UUID pattern
`/[0-9a-f]{8}-[0-9a-f]{4}-[0-9a-f]{4}-[0-9a-f]{4}-[0-9a-f]{12}` (compiled with
`re.IGNORECASE`) at the beginning of a list; on success return
(matched text including the slash, remainder). -/
def matchUuidAt : List Char → Option (List Char × List Char)
  | '/' :: rest =>
    match takeHex 8 rest with
    | none => none
    | some (g1, r1) =>
      match takeDash r1 with
      | none => none
      | some (d1, r2) =>
        match takeHex 4 r2 with
        | none => none
        | some (g2, r3) =>
          match takeDash r3 with
          | none => none
          | some (d2, r4) =>
            match takeHex 4 r4 with
            | none => none
            | some (g3, r5) =>
              match takeDash r5 with
              | none => none
              | some (d3, r6) =>
                match takeHex 4 r6 with
                | none => none
                | some (g4, r7) =>
                  match takeDash r7 with
                  | none => none
                  | some (d4, r8) =>
                    match takeHex 12 r8 with
                    | none => none
                    | some (g5, r9) =>
                      some ('/' :: (g1 ++ d1 ++ g2 ++ d2 ++ g3 ++ d3 ++ g4 ++ d4 ++ g5), r9)
  | _ => none

/-- `re.finditer` for the UUID pattern: left-to-right, non-overlapping;
returns the matched texts (`match.group(0)`, slash included) in order.
`fuel` bounds recursion and is called with `length + 1`. -/
def uuidScan : Nat → List Char → List (List Char)
  | 0, _ => []
  | _ + 1, [] => []
  | fuel + 1, c :: rest =>
    match matchUuidAt (c :: rest) with
    | some (g0, after) => g0 :: uuidScan fuel after
    | none => uuidScan fuel rest

/-- The UUID replacement loop of `_extract_path_params`: for the `i`-th match
(0-based) the parameter is named `id` (i = 0) or `uuid_<i>`, and **all**
occurrences of the matched text are replaced (`str.replace`); the parameter's
example value is the matched text without the leading slash. -/
def applyUuidMatches : Nat → List (List Char) → String → List RequestParam →
    String × List RequestParam
  | _, [], norm, ps => (norm, ps)
  | i, g0 :: rest, norm, ps =>
    let pname := if i = 0 then "id" else "uuid_" ++ toString i
    let norm' := pyReplace norm ⟨g0⟩ ("/\x7b" ++ pname ++ "\x7d")
    applyUuidMatches (i + 1) rest norm'
      (ps ++ [{ name := pname, param_type := "path",
                example_value := PyVal.vstr ⟨g0.drop 1⟩, required := true,
                description := "UUID identifier" }])

/-- `re.finditer` for `/(\d+)(?=/|$)` with match positions: returns
`(start, end, digits)` for each match, where `start`/`end` are `match.start()`
and `match.end()` in the scanned string (the lookahead is not consumed, so
scanning resumes at `end`). -/
def numScan : Nat → Nat → List Char → List (Nat × Nat × List Char)
  | 0, _, _ => []
  | _ + 1, _, [] => []
  | fuel + 1, i, c :: rest =>
    if c = '/' then
      let digits := rest.takeWhile pyIsDigit
      let after := rest.dropWhile pyIsDigit
      if digits.length > 0 &&
         (match after with | [] => true | r :: _ => r = '/') then
        (i, i + 1 + digits.length, digits) :: numScan fuel (i + 1 + digits.length) after
      else numScan fuel (i + 1) rest
    else numScan fuel (i + 1) rest

/-- The numeric-ID replacement loop of `_extract_path_params`.  Faithful to the
source: all matches are first collected on the UUID-normalized string, then
each is spliced in with the bracketed placeholder between
`normalized_path[:start]` and `normalized_path[end:]`
— the positions are **not** shifted when an earlier replacement changed the
string's length.  The `'{' in match.group(0)` guard of the source is kept
(it can never fire, since `group(0)` is a slash followed by digits). -/
def applyNumMatches : Nat → List (Nat × Nat × List Char) → List Char → List RequestParam →
    List Char × List RequestParam
  | _, [], norm, ps => (norm, ps)
  | i, (s, e, digits) :: rest, norm, ps =>
    let g0 := '/' :: digits
    let pname := if i = 0 then "id" else "id_" ++ toString i
    if g0.contains '{' then applyNumMatches (i + 1) rest norm ps
    else
      let norm' := norm.take s ++ ('/' :: '{' :: pname.data ++ ['}']) ++ norm.drop e
      applyNumMatches (i + 1) rest norm'
        (ps ++ [{ name := pname, param_type := "path",
                  example_value := PyVal.vstr ⟨digits⟩, required := true,
                  description := "Numeric identifier" }])

/-- `HARParser._extract_path_params`: UUID segments first (replaced via
`str.replace` on the whole path), then numeric segments (spliced in at the
positions found on the UUID-normalized string). -/
def extract_path_params (path : String) : String × List RequestParam :=
  let uuids := uuidScan (path.data.length + 1) path.data
  let (norm1, ps1) := applyUuidMatches 0 uuids path []
  let nums := numScan (norm1.data.length + 1) 0 norm1.data
  let (norm2, ps2) := applyNumMatches 0 nums norm1.data ps1
  (⟨norm2⟩, ps2)

/-! ## `HARParser._extract_query_params` -/

/-- Names skipped by `_extract_query_params`: leading underscore or one of the
framework parameter names. -/
def isSkippedQueryName (name : String) : Bool :=
  strHasPre "_" name || name = "rsc" || name = "callback" || name = "jsonp"

/-- `HARParser._extract_query_params`: parse the URL's query string and emit
one optional query parameter per surviving name, with the first observed value
as example. -/
def extract_query_params (url : String) : List RequestParam :=
  (parse_qs (urlparse url).query).filterMap (fun kv =>
    if isSkippedQueryName kv.1 then none
    else some { name := kv.1, param_type := "query",
                example_value := match kv.2 with
                  | [] => PyVal.vnone
                  | v :: _ => PyVal.vstr v,
                required := false,
                description := "Query parameter: " ++ kv.1 })

/-! ## `HARParser` body/response extraction -/

/-- `HARParser._extract_request_body`. -/
def extract_request_body (request : HarRequest) : Option JValue :=
  match request.postData with
  | none => none
  | some pd =>
    if pd.text = "" then none
    else if strContains pd.mimeType "json" then
      match pd.textJson with
      | some v => some v
      | none => some (JValue.jobj [("raw", JValue.jstr pd.text)])
    else if strContains pd.mimeType "form" then
      some (JValue.jobj (pd.params.foldl (fun acc p => dictSet acc p.name (JValue.jstr p.value)) []))
    else some (JValue.jobj [("raw", JValue.jstr pd.text)])

/-- `HARParser._truncate_response`: depth 0 collapses to the marker; otherwise
keep the first 10 keys, recurse (depth − 1) into dict values, and cut list
values longer than 2 elements down to their first 2. -/
def truncate_response : Nat → List (String × JValue) → List (String × JValue)
  | 0, _ => [("...", JValue.jstr "truncated")]
  | d + 1, data =>
    (data.take 10).map (fun kv =>
      (kv.1, match kv.2 with
        | JValue.jobj m => JValue.jobj (truncate_response d m)
        | JValue.jarr l => JValue.jarr (if l.length > 2 then l.take 2 else l)
        | v => v))

/-- `HARParser._extract_response_example`: JSON responses only; dict payloads
are truncated with `max_depth = 3`, top-level lists longer than 2 are cut to
their first 2 items, anything else is returned as parsed; parse failures and
non-JSON content yield no example. -/
def extract_response_example (response : HarResponse) : Option JValue :=
  match response.content with
  | none => none
  | some content =>
    if content.text = "" then none
    else if strContains content.mimeType "json" then
      match content.textJson with
      | none => none
      | some (JValue.jobj m) => some (JValue.jobj (truncate_response 3 m))
      | some (JValue.jarr l) =>
        if l.length > 2 then some (JValue.jarr (l.take 2)) else some (JValue.jarr l)
      | some v => some v
    else none

/-- `HARParser._normalize_headers`: drop browser-specific headers, keep the
original casing of names, later same-cased duplicates overwrite in place. -/
def normalize_headers (headers : List Header) : List (String × String) :=
  headers.foldl (fun acc h =>
    if SKIP_HEADERS.contains (pyLower h.name) then acc else dictSet acc h.name h.value) []

/-! ## Service identity derivation -/

/-- `HARParser._host_to_name`: lower-case, strip one leading
`www.`/`api.`/`blog.` label, strip one trailing common TLD, collapse runs of
other characters to single hyphens, trim edge hyphens. -/
def collapseNonAlnumAux : List Char → Bool → List Char
  | [], _ => []
  | c :: rest, inRun =>
    if isLowerAlnum c then c :: collapseNonAlnumAux rest false
    else if inRun then collapseNonAlnumAux rest true
    else '-' :: collapseNonAlnumAux rest true

/-- `HARParser._host_to_name`. -/
def host_to_name (host : String) : String :=
  let n := pyLower host
  let n := if strHasPre "www." n then strDrop n 4
           else if strHasPre "api." n then strDrop n 4
           else if strHasPre "blog." n then strDrop n 5
           else n
  let n := if strHasSuf ".com" n then strDropRight n 4
           else if strHasSuf ".org" n then strDropRight n 4
           else if strHasSuf ".net" n then strDropRight n 4
           else if strHasSuf ".io" n then strDropRight n 3
           else if strHasSuf ".ai" n then strDropRight n 3
           else if strHasSuf ".dev" n then strDropRight n 4
           else n
  pyStripChar '-' ⟨collapseNonAlnumAux n.data false⟩

/-- The insertion-ordered set of hosts `_extract_service_name` collects: the
netloc of every entry whose URL is nonempty and not a static resource. -/
def collectHosts (entries : List HarEntry) : List String :=
  entries.foldl (fun acc e =>
    let url := e.request.url
    if url ≠ "" && ¬ is_static_resource url then
      let p := urlparse url
      if p.netloc ≠ "" then setAdd acc p.netloc else acc
    else acc) []

/-- `HARParser._extract_service_name`.  `perm` models the enumeration order of
the Python `set` (`for host in hosts` / `list(hosts)[0]`): it is applied to
the insertion-ordered element list, and in CPython it is a hash-dependent
permutation that varies between processes. -/
def extract_service_name (perm : List String → List String) (entries : List HarEntry) : String :=
  let hosts := collectHosts entries
  if hosts.isEmpty then "unknown"
  else
    let ordered := perm hosts
    match ordered.find? (fun h => strContains (pyLower h) "api") with
    | some h => host_to_name h
    | none => host_to_name (ordered.headD "")

/-! ## `HARParser.parse` -/

/-- The aggregation key of `HARParser.parse`:
`method + ":" + base_url + normalized_path`. -/
def endpointKeyOf (method base_url npath : String) : String :=
  method ++ ":" ++ base_url ++ npath

/-- The key an `APIEndpoint` was stored under (its fields reassemble it). -/
def epKey (e : APIEndpoint) : String := endpointKeyOf e.method e.base_url e.path

/-- The merge step of `HARParser.parse` for a repeated key: append only the
query parameters whose names are not already present; every other field of
the existing endpoint is untouched. -/
def mergeQueryParams (existing : APIEndpoint) (newParams : List RequestParam) : APIEndpoint :=
  let names := existing.query_params.map (fun p => p.name)
  { existing with
    query_params := existing.query_params ++
      newParams.filter (fun p => ¬ names.contains p.name) }

/-- The accumulator of the `parse` loop: the endpoint dict (in insertion
order), the concatenated auth patterns, and the insertion-ordered base-URL
set. -/
structure ParseState where
  endpoints : List (String × APIEndpoint) := []
  auth : List AuthPattern := []
  base_urls : List String := []

/-- One iteration of the `parse` loop over a HAR entry. -/
def processEntry (st : ParseState) (entry : HarEntry) : ParseState :=
  let url := entry.request.url
  let method := entry.request.method
  let headers := entry.request.headers
  if is_static_resource url then st
  else if ¬ is_api_call url headers then st
  else
    let parsed := urlparse url
    let base_url := parsed.scheme ++ "://" ++ parsed.netloc
    let base_urls := setAdd st.base_urls base_url
    let (npath, path_params) := extract_path_params parsed.path
    let key := endpointKeyOf method base_url npath
    let auth := st.auth ++ extract_auth_patterns headers
    let query_params := extract_query_params url
    let request_body := extract_request_body entry.request
    let response_example := extract_response_example entry.response
    let nheaders := normalize_headers headers
    let ep : APIEndpoint :=
      { method := method, path := npath, base_url := base_url, full_url := url,
        query_params := query_params, path_params := path_params,
        headers := nheaders, request_body := request_body,
        response_example := response_example,
        response_status := entry.response.status,
        content_type := (dictGet nheaders "Content-Type").getD "application/json",
        description := "" }
    let endpoints :=
      match dictGet st.endpoints key with
      | some _ => dictUpdate st.endpoints key (fun ex => mergeQueryParams ex query_params)
      | none => st.endpoints ++ [(key, ep)]
    { endpoints := endpoints, auth := auth, base_urls := base_urls }

/-- The auth dedup at the end of `parse`: keep the first pattern per
`auth_type + ":" + header_name` key, in first-appearance order. -/
def dedupAuthPatterns (patterns : List AuthPattern) : List AuthPattern :=
  (patterns.foldl (fun acc p =>
      let key := p.auth_type ++ ":" ++ p.header_name
      match dictGet acc key with
      | some _ => acc
      | none => acc ++ [(key, p)]) []).map (fun kv => kv.2)

/-- `HARParser.parse`.  `perm` models the hash-dependent enumeration order of
the Python sets (`list(base_urls)[0]` and the host set inside
`_extract_service_name`); the endpoint list itself does not depend on it. -/
def parse (perm : List String → List String) (entries : List HarEntry) : ServiceInfo :=
  let st := entries.foldl processEntry {}
  let service_name := extract_service_name perm entries
  { name := service_name,
    base_url := if st.base_urls.isEmpty then "" else (perm st.base_urls).headD "",
    description := "API service for " ++ service_name,
    auth_patterns := dedupAuthPatterns st.auth,
    endpoints := st.endpoints.map (fun kv => kv.2) }

/-! ## `APIEndpoint.tool_name` -/

/-- `[a-zA-Z0-9]` test. -/
def isAlnumAscii (c : Char) : Bool :=
  (97 ≤ c.toNat && c.toNat ≤ 122) || (65 ≤ c.toNat && c.toNat ≤ 90) || pyIsDigit c

/-- `re.sub(r'\{(\w+)\}', r'\1', path)`: drop the braces around brace-wrapped
word-character runs.  `fuel` is called with `length + 1`. -/
def unbraceAux : Nat → List Char → List Char
  | 0, s => s
  | _ + 1, [] => []
  | fuel + 1, c :: rest =>
    if c = '{' then
      let w := rest.takeWhile isWordChar
      let r := rest.dropWhile isWordChar
      match r with
      | '}' :: r2 => if w.length > 0 then w ++ unbraceAux fuel r2 else c :: unbraceAux fuel rest
      | _ => c :: unbraceAux fuel rest
    else c :: unbraceAux fuel rest

/-- `re.sub(r'[^a-zA-Z0-9]+', '_', path)`: collapse runs of non-alphanumerics
to one underscore. -/
def collapseToUnderscoreAux : List Char → Bool → List Char
  | [], _ => []
  | c :: rest, inRun =>
    if isAlnumAscii c then c :: collapseToUnderscoreAux rest false
    else if inRun then collapseToUnderscoreAux rest true
    else '_' :: collapseToUnderscoreAux rest true

/-- `APIEndpoint.tool_name`: strip slashes, unbrace placeholders, collapse
non-alphanumerics to underscores, strip underscores, lower-case, and prefix
with the verb derived from the method. -/
def tool_name (e : APIEndpoint) : String :=
  let path := pyStripChar '/' e.path
  let path : String := ⟨unbraceAux (path.data.length + 1) path.data⟩
  let path : String := ⟨collapseToUnderscoreAux path.data false⟩
  let path := pyLower (pyStripChar '_' path)
  let pre :=
    match pyUpper e.method with
    | "GET" => "get"
    | "POST" => "create"
    | "PUT" => "update"
    | "PATCH" => "patch"
    | "DELETE" => "delete"
    | _ => pyLower e.method
  if path = "" then pre else pre ++ "_" ++ path

/-! ## `MCPGenerator` naming helpers -/

/-- `MCPGenerator.server_name`: `iblai-<service name>`. -/
def serverNameOf (s : ServiceInfo) : String := "iblai-" ++ s.name

/-- The package module name: `server_name.replace('-', '_')`. -/
def moduleNameOf (s : ServiceInfo) : String := pyReplaceChar (serverNameOf s) '-' '_'

/-- `MCPGenerator._env_var_name` header: the upper-cased service name with
hyphens and dots replaced by underscores. -/
def envVarPre (s : ServiceInfo) : String :=
  pyReplaceChar (pyReplaceChar (pyUpper s.name) '-' '_') '.' '_'

/-- `MCPGenerator._python_safe_name`: map every character outside
`[a-zA-Z0-9_]` to `_`, guard a leading digit, lower-case. -/
def pythonSafeName (name : String) : String :=
  let safe : String := ⟨name.data.map (fun c => if isAlnumAscii c || c = '_' then c else '_')⟩
  let safe := match safe.data with
    | c :: _ => if pyIsDigit c then "_" ++ safe else safe
    | [] => safe
  pyLower safe

/-! ## `json.dumps` model -/

/-- Lower-case hex digit character. -/
def hexDigitChar (n : Nat) : Char :=
  if n < 10 then Char.ofNat (48 + n) else Char.ofNat (87 + n)

/-- `\uXXXX` escape. -/
def uEsc (n : Nat) : List Char :=
  '\\' :: 'u' :: [hexDigitChar (n / 4096 % 16), hexDigitChar (n / 256 % 16),
                  hexDigitChar (n / 16 % 16), hexDigitChar (n % 16)]

/-- JSON escaping of one character (`json.dumps` with its default
`ensure_ascii=True`). -/
def jsonEscapeChar (c : Char) : List Char :=
  if c = '"' then ['\\', '"']
  else if c = '\\' then ['\\', '\\']
  else if c = '\n' then ['\\', 'n']
  else if c = '\t' then ['\\', 't']
  else if c = '\r' then ['\\', 'r']
  else if c.toNat = 8 then ['\\', 'b']
  else if c.toNat = 12 then ['\\', 'f']
  else if c.toNat < 32 || c.toNat > 127 then uEsc c.toNat
  else [c]

/-- JSON string-body escaping. -/
def jsonEscape (s : String) : String := ⟨(s.data.map jsonEscapeChar).flatten⟩

/-- `n` spaces. -/
def spaces (n : Nat) : String := ⟨List.replicate n ' '⟩

mutual

/-- Model of `json.dumps(v)` with the default separators. -/
def jsonDumps : JValue → String
  | JValue.jnull => "null"
  | JValue.jbool true => "true"
  | JValue.jbool false => "false"
  | JValue.jnum n => toString n
  | JValue.jstr s => "\"" ++ jsonEscape s ++ "\""
  | JValue.jarr items => "[" ++ String.intercalate ", " (jsonDumpsList items) ++ "]"
  | JValue.jobj entries => "\x7b" ++ String.intercalate ", " (jsonDumpsEntries entries) ++ "\x7d"

def jsonDumpsList : List JValue → List String
  | [] => []
  | v :: rest => jsonDumps v :: jsonDumpsList rest

def jsonDumpsEntries : List (String × JValue) → List String
  | [] => []
  | (k, v) :: rest => ("\"" ++ jsonEscape k ++ "\": " ++ jsonDumps v) :: jsonDumpsEntries rest

end

mutual

/-- Model of `json.dumps(v, indent=ind)` at nesting `level`. -/
def jsonDumpsInd (ind level : Nat) : JValue → String
  | JValue.jnull => "null"
  | JValue.jbool true => "true"
  | JValue.jbool false => "false"
  | JValue.jnum n => toString n
  | JValue.jstr s => "\"" ++ jsonEscape s ++ "\""
  | JValue.jarr [] => "[]"
  | JValue.jobj [] => "\x7b\x7d"
  | JValue.jarr items =>
    "[\n" ++ String.intercalate ",\n" (jsonDumpsIndList ind (level + 1) items) ++
    "\n" ++ spaces (ind * level) ++ "]"
  | JValue.jobj entries =>
    "\x7b\n" ++ String.intercalate ",\n" (jsonDumpsIndEntries ind (level + 1) entries) ++
    "\n" ++ spaces (ind * level) ++ "\x7d"

def jsonDumpsIndList (ind level : Nat) : List JValue → List String
  | [] => []
  | v :: rest =>
    (spaces (ind * level) ++ jsonDumpsInd ind level v) :: jsonDumpsIndList ind level rest

def jsonDumpsIndEntries (ind level : Nat) : List (String × JValue) → List String
  | [] => []
  | (k, v) :: rest =>
    (spaces (ind * level) ++ "\"" ++ jsonEscape k ++ "\": " ++ jsonDumpsInd ind level v) ::
    jsonDumpsIndEntries ind level rest

end

/-! ## `MCPGenerator` schema building -/

/-- Python truthiness of a JSON value. -/
def jfalsy : JValue → Bool
  | JValue.jnull => true
  | JValue.jbool b => !b
  | JValue.jnum n => n = 0
  | JValue.jstr s => s = ""
  | JValue.jarr l => l.isEmpty
  | JValue.jobj m => m.isEmpty

/-- The `isinstance` chain of `_generate_param_schema` for the `type` field.
Note that Python's `isinstance(True, int)` is `True`, so a boolean example is
typed `integer` there (the `bool` branch is unreachable). -/
def paramPropType (v : PyVal) : String :=
  match v with
  | PyVal.vnone => "string"
  | PyVal.vstr _ => "string"
  | PyVal.vint _ => "integer"
  | PyVal.vbool _ => "integer"

/-- One property of `_generate_param_schema`. -/
def paramProp (p : RequestParam) : JValue :=
  JValue.jobj
    [ ("type", JValue.jstr (paramPropType p.example_value)),
      ("description", JValue.jstr
        (if p.description = "" then "Parameter: " ++ p.name else p.description)) ]

/-- `MCPGenerator._generate_param_schema`, as the schema dict's entry list
(`[]` models the empty dict returned for an empty parameter list). -/
def genParamSchemaD (params : List RequestParam) : List (String × JValue) :=
  if params.isEmpty then []
  else
    let properties := params.foldl (fun acc p => dictSet acc p.name (paramProp p)) []
    let required := (params.filter (fun p => p.required)).map
      (fun p => JValue.jstr p.name)
    [("type", JValue.jstr "object"), ("properties", JValue.jobj properties)] ++
    (if required.isEmpty then [] else [("required", JValue.jarr required)])

mutual

/-- `infer_schema` inside `MCPGenerator._generate_body_schema`, as the schema
dict's entry list.  (`bool` is tested before `int` there, so booleans type as
`boolean`; JSON numbers are modelled as integers.) -/
def inferSchemaD : JValue → List (String × JValue)
  | JValue.jobj m =>
    [("type", JValue.jstr "object"), ("properties", JValue.jobj (inferSchemaEntries m))]
  | JValue.jarr [] => [("type", JValue.jstr "array"), ("items", JValue.jobj [])]
  | JValue.jarr (x :: _) =>
    [("type", JValue.jstr "array"), ("items", JValue.jobj (inferSchemaD x))]
  | JValue.jbool _ => [("type", JValue.jstr "boolean")]
  | JValue.jnum _ => [("type", JValue.jstr "integer")]
  | JValue.jnull => [("type", JValue.jstr "string")]
  | JValue.jstr _ => [("type", JValue.jstr "string")]

def inferSchemaEntries : List (String × JValue) → List (String × JValue)
  | [] => []
  | (k, v) :: rest => (k, JValue.jobj (inferSchemaD v)) :: inferSchemaEntries rest

end

/-- `MCPGenerator._generate_body_schema` (empty dict for a falsy body). -/
def genBodySchemaD (body : Option JValue) : List (String × JValue) :=
  match body with
  | none => []
  | some b => if jfalsy b then [] else inferSchemaD b

/-- The `request_body` handling shared by `_generate_tool_code`,
`_generate_tools_list` and `_generate_tools_list_items`: when the endpoint has
a truthy request body whose inferred schema has a nonempty `properties` dict,
`schema.setdefault("properties", {})` and `schema["properties"]["body"] = ...`. -/
def addBodyToSchema (schema : List (String × JValue)) (body : Option JValue) :
    List (String × JValue) :=
  match body with
  | none => schema
  | some b =>
    if jfalsy b then schema
    else
      match dictGet (genBodySchemaD (some b)) "properties" with
      | some (JValue.jobj props) =>
        if props.isEmpty then schema
        else
          let schema :=
            if (dictGet schema "properties").isSome then schema
            else schema ++ [("properties", JValue.jobj [])]
          dictUpdate schema "properties" (fun v =>
            match v with
            | JValue.jobj ps => JValue.jobj (dictSet ps "body" (JValue.jobj
                [ ("type", JValue.jstr "object"),
                  ("description", JValue.jstr "Request body"),
                  ("properties", JValue.jobj props) ]))
            | v => v)
      | _ => schema

/-- The input schema of one endpoint's tool (path params then query params,
plus the optional `body` property). -/
def toolInputSchema (e : APIEndpoint) : List (String × JValue) :=
  addBodyToSchema (genParamSchemaD (e.path_params ++ e.query_params)) e.request_body

/-! ## `MCPGenerator` artifact text (the generated package's files) -/

/-- `MCPGenerator._generate_path_param_extraction`. -/
def pathParamExtraction (params : List RequestParam) : String :=
  if params.isEmpty then "pass  # No path parameters"
  else String.intercalate "\n    " ((params.map (fun p =>
    [ "if \"" ++ p.name ++ "\" in arguments:",
      "        path = path.replace(\"\x7b" ++ p.name ++ "\x7d\", str(arguments[\"" ++ p.name ++ "\"]))" ])).flatten)

/-- `MCPGenerator._generate_query_param_extraction`. -/
def queryParamExtraction (params : List RequestParam) : String :=
  if params.isEmpty then "pass  # No query parameters"
  else String.intercalate "\n    " ((params.map (fun p =>
    [ "if \"" ++ p.name ++ "\" in arguments:",
      "        query_params[\"" ++ p.name ++ "\"] = arguments[\"" ++ p.name ++ "\"]" ])).flatten)

/-- The pipe-joined description built in `_generate_tool_code`. -/
def toolCodeDescription (e : APIEndpoint) : String :=
  String.intercalate " | "
    ([e.method ++ " " ++ e.path] ++
     (if e.query_params.isEmpty then []
      else ["Query params: " ++ String.intercalate ", " (e.query_params.map (fun p => p.name))]) ++
     (if e.path_params.isEmpty then []
      else ["Path params: " ++ String.intercalate ", " (e.path_params.map (fun p => p.name))]))

/-- The schema placed in a `types.Tool` item (`_generate_tools_list_items`):
the endpoint's input schema, or the empty-object schema when it is falsy. -/
def toolsListItemSchema (e : APIEndpoint) : List (String × JValue) :=
  let schema := toolInputSchema e
  if schema.isEmpty then [("type", JValue.jstr "object"), ("properties", JValue.jobj [])]
  else schema


/-- `MCPGenerator._generate_tool_code` (its locally computed `schema_str` is dead: the returned template does not interpolate it). -/
def toolCodeOf (e : APIEndpoint) : String :=
  let sn := pythonSafeName (tool_name e)
  "\n@server.tool()\nasync def "
  ++ sn
  ++ "(arguments: dict) -> list[types.TextContent]:\n    \"\"\"\n    "
  ++ toolCodeDescription e
  ++ "\n\n    Endpoint: "
  ++ e.method
  ++ " "
  ++ e.path
  ++ "\n    \"\"\"\n    # Extract path parameters\n    path = \""
  ++ e.path
  ++ "\"\n    "
  ++ pathParamExtraction e.path_params
  ++ "\n\n    # Extract query parameters\n    query_params = \x7b\x7d\n    "
  ++ queryParamExtraction e.query_params
  ++ "\n\n    # Extract body if present\n    body = arguments.get(\"body\")\n"
  ++ "\n    # Make the API request\n    result = await client.request(\n        method=\""
  ++ e.method
  ++ "\",\n        path=path,\n        query_params=query_params,\n        body=body\n    )\n"
  ++ "\n    return [types.TextContent(type=\"text\", text=json.dumps(result, indent=2))]\n"

/-- One `types.Tool(...)` item of `_generate_tools_list_items`. -/
def toolsListItemOf (e : APIEndpoint) : String :=
  "types.Tool(\n            name=\""
  ++ tool_name e
  ++ "\",\n            description=\""
  ++ e.method ++ " " ++ e.path
  ++ "\",\n            inputSchema="
  ++ jsonDumps (JValue.jobj (toolsListItemSchema e))
  ++ "\n        )"


/-- The joined `types.Tool(...)` items of `_generate_tools_list_items`. -/
def toolsListItems (s : ServiceInfo) : String :=
  String.intercalate ",\n        " (s.endpoints.map toolsListItemOf)

/-- The joined per-endpoint tool code of `_generate_server_py`. -/
def toolsCodeOf (s : ServiceInfo) : String :=
  String.intercalate "\n" (s.endpoints.map toolCodeOf)

/-- The per-endpoint parameter list in the README (`_generate_readme`). -/
def readmeParamsStr (e : APIEndpoint) : String :=
  let params := (e.path_params ++ e.query_params).map (fun p =>
    "  - \x60" ++ p.name ++ "\x60: " ++ p.description ++
    (if p.required then " (required)" else ""))
  if params.isEmpty then "  No parameters" else String.intercalate "\n" params


/-- One tool section of the README (`_generate_readme`). -/
def readmeToolDoc (e : APIEndpoint) : String :=
  "### \x60"
  ++ tool_name e
  ++ "\x60\n\n"
  ++ e.method
  ++ " "
  ++ e.path
  ++ "\n\n**Parameters:**\n"
  ++ readmeParamsStr e
  ++ "\n"

/-- The no-auth configuration section of the README. -/
def authReadmeNoAuth (s : ServiceInfo) : String :=
  let P := envVarPre s
  "## Configuration\n"
  ++ "\nNo authentication was detected in the captured API calls. This API appears to be public.\n"
  ++ "\n### Environment Variables\n\n| Variable | Description | Required |\n"
  ++ "|----------|-------------|----------|\n| \x60"
  ++ P
  ++ "_BASE_URL\x60 | API base URL (default: "
  ++ s.base_url
  ++ ") | No |"


/-- The `## Available Tools` section of the README. -/
def readmeToolsSection (s : ServiceInfo) : String :=
  String.intercalate "\n" (s.endpoints.map readmeToolDoc)

/-- The environment-variable table rows contributed by one discovered
`AuthPattern` (`_generate_auth_readme_section`). -/
def authTableRows (P : String) (a : AuthPattern) : List String :=
  if a.auth_type = "bearer" then
    [ "| \x60" ++ P ++ "_AUTH_TYPE\x60 | Set to \x60bearer\x60 | Yes |",
      "| \x60" ++ P ++ "_BEARER_TOKEN\x60 | Bearer token for authentication | Yes |" ]
  else if a.auth_type = "api_key" then
    [ "| \x60" ++ P ++ "_AUTH_TYPE\x60 | Set to \x60api_key\x60 | Yes |",
      "| \x60" ++ P ++ "_API_KEY\x60 | API key for authentication | Yes |" ] ++
    (if a.header_name ≠ "" && a.header_name ≠ "X-API-Key" then
       [ "| \x60" ++ P ++ "_API_KEY_HEADER\x60 | Header name (default: " ++ a.header_name ++ ") | No |" ]
     else [])
  else if a.auth_type = "custom_header" then
    [ "| \x60" ++ P ++ "_AUTH_TYPE\x60 | Set to \x60custom_header\x60 | Yes |",
      "| \x60" ++ P ++ "_CUSTOM_HEADER_NAME\x60 | Header name: \x60" ++ a.header_name ++ "\x60 | Yes |",
      "| \x60" ++ P ++ "_CUSTOM_HEADER_VALUE\x60 | Header value | Yes |" ]
  else []

/-- The example `export` lines for the first discovered pattern
(`_generate_auth_readme_section`; the loop breaks after one pattern). -/
def authExampleLines (P : String) (a : AuthPattern) : List String :=
  if a.auth_type = "bearer" then
    [ "export " ++ P ++ "_AUTH_TYPE=bearer",
      "export " ++ P ++ "_BEARER_TOKEN=your_token_here" ]
  else if a.auth_type = "api_key" then
    [ "export " ++ P ++ "_AUTH_TYPE=api_key",
      "export " ++ P ++ "_API_KEY=your_api_key_here" ]
  else if a.auth_type = "custom_header" then
    [ "export " ++ P ++ "_AUTH_TYPE=custom_header",
      "export " ++ P ++ "_CUSTOM_HEADER_NAME=" ++ a.header_name,
      "export " ++ P ++ "_CUSTOM_HEADER_VALUE=your_value_here" ]
  else []

/-- `MCPGenerator._generate_auth_readme_section`. -/
def authReadmeSection (s : ServiceInfo) : String :=
  if s.auth_patterns.isEmpty then authReadmeNoAuth s
  else
    let P := envVarPre s
    let lines :=
      [ "## Configuration\n\n### Environment Variables\n\n| Variable | Description | Required |\n|----------|-------------|----------|",
        "| \x60" ++ P ++ "_BASE_URL\x60 | API base URL (default: " ++ s.base_url ++ ") | No |" ] ++
      (s.auth_patterns.map (authTableRows P)).flatten
    let exampleLines :=
      [ "\n### Example Configuration\n\n\x60\x60\x60bash" ] ++
      (match s.auth_patterns with
       | [] => []
       | a :: _ => authExampleLines P a) ++
      [ "\x60\x60\x60" ]
    String.intercalate "\n" lines ++ String.intercalate "\n" exampleLines


/-- The Claude Desktop JSON block when no auth pattern was discovered. -/
def claudeConfigNoAuth (s : ServiceInfo) : String :=
  let sn := serverNameOf s
  "\x60\x60\x60json\n\x7b\n  \"mcpServers\": \x7b\n    \""
  ++ sn
  ++ "\": \x7b\n      \"command\": \"uv\",\n      \"args\": [\"run\", \""
  ++ sn
  ++ "\"],\n      \"cwd\": \"/path/to/"
  ++ sn
  ++ "\"\n    \x7d\n  \x7d\n\x7d\n\x60\x60\x60"

/-- The `env` block for a bearer pattern. -/
def claudeEnvBearer (s : ServiceInfo) : String :=
  let P := envVarPre s
  ",\n      \"env\": \x7b\n        \""
  ++ P
  ++ "_AUTH_TYPE\": \"bearer\",\n        \""
  ++ P
  ++ "_BEARER_TOKEN\": \"your_token_here\"\n      \x7d"

/-- The `env` block for an api_key pattern. -/
def claudeEnvApiKey (s : ServiceInfo) : String :=
  let P := envVarPre s
  ",\n      \"env\": \x7b\n        \""
  ++ P
  ++ "_AUTH_TYPE\": \"api_key\",\n        \""
  ++ P
  ++ "_API_KEY\": \"your_api_key_here\"\n      \x7d"

/-- The `env` block for a custom_header pattern. -/
def claudeEnvCustom (s : ServiceInfo) (a : AuthPattern) : String :=
  let P := envVarPre s
  ",\n      \"env\": \x7b\n        \""
  ++ P
  ++ "_AUTH_TYPE\": \"custom_header\",\n        \""
  ++ P
  ++ "_CUSTOM_HEADER_NAME\": \""
  ++ a.header_name
  ++ "\",\n        \""
  ++ P
  ++ "_CUSTOM_HEADER_VALUE\": \"your_value_here\"\n      \x7d"

/-- The Claude Desktop JSON block around a non-empty `env` section. -/
def claudeConfigWithAuth (s : ServiceInfo) (envSection : String) : String :=
  let sn := serverNameOf s
  "\x60\x60\x60json\n\x7b\n  \"mcpServers\": \x7b\n    \""
  ++ sn
  ++ "\": \x7b\n      \"command\": \"uv\",\n      \"args\": [\"run\", \""
  ++ sn
  ++ "\"],\n      \"cwd\": \"/path/to/"
  ++ sn
  ++ "\""
  ++ envSection
  ++ "\n    \x7d\n  \x7d\n\x7d\n\x60\x60\x60"


/-- `MCPGenerator._generate_claude_desktop_config` (the `env` block comes from
the first discovered pattern only; the loop breaks after one). -/
def claudeDesktopConfig (s : ServiceInfo) : String :=
  match s.auth_patterns with
  | [] => claudeConfigNoAuth s
  | a :: _ =>
    let envSection :=
      if a.auth_type = "bearer" then claudeEnvBearer s
      else if a.auth_type = "api_key" then claudeEnvApiKey s
      else if a.auth_type = "custom_header" then claudeEnvCustom s a
      else ""
    claudeConfigWithAuth s envSection


/-- `MCPGenerator._generate_server_py` file content. -/
def serverPyContent (s : ServiceInfo) (now : String) : String :=
  let sn := serverNameOf s
  "#!/usr/bin/env python3\n\"\"\"\n"
  ++ sn
  ++ " MCP Server\n\nAuto-generated MCP server for "
  ++ s.name
  ++ " API.\nBase URL: "
  ++ s.base_url
  ++ "\n\nGenerated on: "
  ++ now
  ++ "\n\"\"\"\n\nimport asyncio\nimport json\nimport os\nfrom typing import Any\n"
  ++ "\nimport mcp.types as types\nfrom mcp.server import Server\n"
  ++ "from mcp.server.stdio import stdio_server\n\nfrom .auth import AuthManager\n"
  ++ "from .client import APIClient\n\n# Initialize the MCP server\nserver = Server(\""
  ++ sn
  ++ "\")\n\n# Initialize authentication manager\nauth_manager = AuthManager()\n"
  ++ "\n# Initialize API client\nclient: APIClient | None = None\n\n\ndef get_client() -> APIClient:\n"
  ++ "    \"\"\"Get or create the API client.\"\"\"\n    global client\n    if client is None:\n"
  ++ "        client = APIClient(\n            base_url=os.getenv(\""
  ++ (envVarPre s ++ "_BASE_URL")
  ++ "\", \""
  ++ s.base_url
  ++ "\"),\n            auth_manager=auth_manager\n        )\n    return client\n\n\n"
  ++ "@server.list_tools()\nasync def list_tools() -> list[types.Tool]:\n"
  ++ "    \"\"\"List all available tools.\"\"\"\n    return [\n        "
  ++ toolsListItems s
  ++ "\n    ]\n\n"
  ++ toolsCodeOf s
  ++ "\n\n\nasync def main():\n    \"\"\"Main entry point for the MCP server.\"\"\"\n    global client\n"
  ++ "    client = get_client()\n\n    async with stdio_server() as (read_stream, write_stream):\n"
  ++ "        await server.run(\n            read_stream,\n            write_stream,\n"
  ++ "            server.create_initialization_options()\n        )\n\n\nif __name__ == \"__main__\":\n"
  ++ "    asyncio.run(main())\n"

/-- `MCPGenerator._generate_init_py` file content. -/
def initPyContent (s : ServiceInfo) : String :=
  "\"\"\"\n"
  ++ serverNameOf s
  ++ " MCP Server Package\n\"\"\"\n\nfrom .server import server, main\n"
  ++ "\n__all__ = [\"server\", \"main\"]\n__version__ = \"0.1.0\"\n"

/-- `MCPGenerator._generate_auth_py` file content. -/
def authPyContent (s : ServiceInfo) : String :=
  let P := envVarPre s
  "\"\"\"\nAuthentication Manager for "
  ++ serverNameOf s
  ++ "\n\nSupports multiple authentication methods:\n- API Key authentication\n"
  ++ "- Bearer token authentication\n- Basic authentication\n- Custom header authentication\n"
  ++ "- OAuth2 (client credentials flow)\n\"\"\"\n\nimport base64\nimport os\n"
  ++ "from dataclasses import dataclass\nfrom enum import Enum\nfrom typing import Any\n\n\n"
  ++ "class AuthType(Enum):\n    \"\"\"Supported authentication types.\"\"\"\n    NONE = \"none\"\n"
  ++ "    API_KEY = \"api_key\"\n    BEARER = \"bearer\"\n    BASIC = \"basic\"\n"
  ++ "    CUSTOM_HEADER = \"custom_header\"\n"
  ++ "    OAUTH2_CLIENT_CREDENTIALS = \"oauth2_client_credentials\"\n\n\n@dataclass\nclass AuthConfig:\n"
  ++ "    \"\"\"Authentication configuration.\"\"\"\n    auth_type: AuthType = AuthType.NONE\n"
  ++ "    api_key: str | None = None\n    api_key_header: str = \"X-API-Key\"\n"
  ++ "    bearer_token: str | None = None\n    basic_username: str | None = None\n"
  ++ "    basic_password: str | None = None\n    custom_header_name: str | None = None\n"
  ++ "    custom_header_value: str | None = None\n    oauth2_client_id: str | None = None\n"
  ++ "    oauth2_client_secret: str | None = None\n    oauth2_token_url: str | None = None\n"
  ++ "    oauth2_scope: str | None = None\n\n\nclass AuthManager:\n    \"\"\"\n"
  ++ "    Manages authentication for API requests.\n"
  ++ "\n    Supports multiple authentication methods and automatically\n"
  ++ "    applies the appropriate headers based on configuration.\n    \"\"\"\n"
  ++ "\n    def __init__(self, config: AuthConfig | None = None):\n"
  ++ "        \"\"\"Initialize the auth manager with optional config.\"\"\"\n"
  ++ "        self.config = config or self._load_from_env()\n"
  ++ "        self._oauth2_token: str | None = None\n        self._token_expiry: float = 0\n"
  ++ "\n    def _load_from_env(self) -> AuthConfig:\n"
  ++ "        \"\"\"Load authentication configuration from environment variables.\"\"\"\n"
  ++ "        auth_type_str = os.getenv(\""
  ++ P
  ++ "_AUTH_TYPE\", \"none\").lower()\n\n        try:\n            auth_type = AuthType(auth_type_str)\n"
  ++ "        except ValueError:\n            auth_type = AuthType.NONE\n\n        return AuthConfig(\n"
  ++ "            auth_type=auth_type,\n            api_key=os.getenv(\""
  ++ P
  ++ "_API_KEY\"),\n            api_key_header=os.getenv(\""
  ++ P
  ++ "_API_KEY_HEADER\", \"X-API-Key\"),\n            bearer_token=os.getenv(\""
  ++ P
  ++ "_BEARER_TOKEN\"),\n            basic_username=os.getenv(\""
  ++ P
  ++ "_BASIC_USERNAME\"),\n            basic_password=os.getenv(\""
  ++ P
  ++ "_BASIC_PASSWORD\"),\n            custom_header_name=os.getenv(\""
  ++ P
  ++ "_CUSTOM_HEADER_NAME\"),\n            custom_header_value=os.getenv(\""
  ++ P
  ++ "_CUSTOM_HEADER_VALUE\"),\n            oauth2_client_id=os.getenv(\""
  ++ P
  ++ "_OAUTH2_CLIENT_ID\"),\n            oauth2_client_secret=os.getenv(\""
  ++ P
  ++ "_OAUTH2_CLIENT_SECRET\"),\n            oauth2_token_url=os.getenv(\""
  ++ P
  ++ "_OAUTH2_TOKEN_URL\"),\n            oauth2_scope=os.getenv(\""
  ++ P
  ++ "_OAUTH2_SCOPE\"),\n        )\n\n    def get_auth_headers(self) -> dict[str, str]:\n"
  ++ "        \"\"\"Get authentication headers based on current configuration.\"\"\"\n"
  ++ "        if self.config.auth_type == AuthType.NONE:\n            return \x7b\x7d\n"
  ++ "\n        elif self.config.auth_type == AuthType.API_KEY:\n            if self.config.api_key:\n"
  ++ "                return \x7bself.config.api_key_header: self.config.api_key\x7d\n"
  ++ "            return \x7b\x7d\n\n        elif self.config.auth_type == AuthType.BEARER:\n"
  ++ "            if self.config.bearer_token:\n"
  ++ "                return \x7b\"Authorization\": f\"Bearer \x7bself.config.bearer_token\x7d\"\x7d\n"
  ++ "            return \x7b\x7d\n\n        elif self.config.auth_type == AuthType.BASIC:\n"
  ++ "            if self.config.basic_username and self.config.basic_password:\n"
  ++ "                credentials = f\"\x7bself.config.basic_username\x7d:\x7bself.config.basic_password\x7d\"\n"
  ++ "                encoded = base64.b64encode(credentials.encode()).decode()\n"
  ++ "                return \x7b\"Authorization\": f\"Basic \x7bencoded\x7d\"\x7d\n"
  ++ "            return \x7b\x7d\n\n        elif self.config.auth_type == AuthType.CUSTOM_HEADER:\n"
  ++ "            if self.config.custom_header_name and self.config.custom_header_value:\n"
  ++ "                return \x7bself.config.custom_header_name: self.config.custom_header_value\x7d\n"
  ++ "            return \x7b\x7d\n"
  ++ "\n        elif self.config.auth_type == AuthType.OAUTH2_CLIENT_CREDENTIALS:\n"
  ++ "            token = self._get_oauth2_token()\n            if token:\n"
  ++ "                return \x7b\"Authorization\": f\"Bearer \x7btoken\x7d\"\x7d\n"
  ++ "            return \x7b\x7d\n\n        return \x7b\x7d\n"
  ++ "\n    def _get_oauth2_token(self) -> str | None:\n"
  ++ "        \"\"\"Get OAuth2 token, refreshing if necessary.\"\"\"\n        import time\n"
  ++ "\n        # Return cached token if still valid\n"
  ++ "        if self._oauth2_token and time.time() < self._token_expiry - 60:\n"
  ++ "            return self._oauth2_token\n\n        # Fetch new token\n        if not all([\n"
  ++ "            self.config.oauth2_client_id,\n            self.config.oauth2_client_secret,\n"
  ++ "            self.config.oauth2_token_url\n        ]):\n            return None\n\n        try:\n"
  ++ "            import httpx\n\n            data = \x7b\n"
  ++ "                \"grant_type\": \"client_credentials\",\n"
  ++ "                \"client_id\": self.config.oauth2_client_id,\n"
  ++ "                \"client_secret\": self.config.oauth2_client_secret,\n            \x7d\n"
  ++ "\n            if self.config.oauth2_scope:\n"
  ++ "                data[\"scope\"] = self.config.oauth2_scope\n"
  ++ "\n            with httpx.Client() as client:\n                response = client.post(\n"
  ++ "                    self.config.oauth2_token_url,\n                    data=data,\n"
  ++ "                    headers=\x7b\"Content-Type\": \"application/x-www-form-urlencoded\"\x7d\n"
  ++ "                )\n                response.raise_for_status()\n"
  ++ "\n                token_data = response.json()\n"
  ++ "                self._oauth2_token = token_data.get(\"access_token\")\n"
  ++ "                expires_in = token_data.get(\"expires_in\", 3600)\n"
  ++ "                self._token_expiry = time.time() + expires_in\n"
  ++ "\n                return self._oauth2_token\n\n        except Exception as e:\n"
  ++ "            print(f\"OAuth2 token fetch failed: \x7be\x7d\")\n            return None\n"
  ++ "\n    def is_configured(self) -> bool:\n"
  ++ "        \"\"\"Check if authentication is properly configured.\"\"\"\n"
  ++ "        if self.config.auth_type == AuthType.NONE:\n            return True\n"
  ++ "\n        elif self.config.auth_type == AuthType.API_KEY:\n"
  ++ "            return bool(self.config.api_key)\n"
  ++ "\n        elif self.config.auth_type == AuthType.BEARER:\n"
  ++ "            return bool(self.config.bearer_token)\n"
  ++ "\n        elif self.config.auth_type == AuthType.BASIC:\n"
  ++ "            return bool(self.config.basic_username and self.config.basic_password)\n"
  ++ "\n        elif self.config.auth_type == AuthType.CUSTOM_HEADER:\n"
  ++ "            return bool(self.config.custom_header_name and self.config.custom_header_value)\n"
  ++ "\n        elif self.config.auth_type == AuthType.OAUTH2_CLIENT_CREDENTIALS:\n"
  ++ "            return bool(\n                self.config.oauth2_client_id and\n"
  ++ "                self.config.oauth2_client_secret and\n                self.config.oauth2_token_url\n"
  ++ "            )\n\n        return False\n"

/-- `MCPGenerator._generate_client_py` file content. -/
def clientPyContent (s : ServiceInfo) : String :=
  "\"\"\"\nAPI Client for "
  ++ serverNameOf s
  ++ "\n\nHandles HTTP requests to the API with authentication,\nerror handling, and response parsing.\n"
  ++ "\"\"\"\n\nimport json\nfrom typing import Any\nfrom urllib.parse import urlencode\n\nimport httpx\n"
  ++ "\nfrom .auth import AuthManager\n\n\nclass APIError(Exception):\n"
  ++ "    \"\"\"API request error.\"\"\"\n"
  ++ "\n    def __init__(self, status_code: int, message: str, response_body: Any = None):\n"
  ++ "        self.status_code = status_code\n        self.message = message\n"
  ++ "        self.response_body = response_body\n"
  ++ "        super().__init__(f\"API Error \x7bstatus_code\x7d: \x7bmessage\x7d\")\n\n\n"
  ++ "class APIClient:\n    \"\"\"\n    HTTP client for making API requests.\n"
  ++ "\n    Handles authentication, request formatting, and error handling.\n    \"\"\"\n"
  ++ "\n    def __init__(\n        self,\n        base_url: str,\n        auth_manager: AuthManager,\n"
  ++ "        timeout: float = 30.0\n    ):\n        \"\"\"Initialize the API client.\"\"\"\n"
  ++ "        self.base_url = base_url.rstrip(\x27/\x27)\n        self.auth_manager = auth_manager\n"
  ++ "        self.timeout = timeout\n        self._client: httpx.AsyncClient | None = None\n"
  ++ "\n    async def _get_client(self) -> httpx.AsyncClient:\n"
  ++ "        \"\"\"Get or create the HTTP client.\"\"\"\n"
  ++ "        if self._client is None or self._client.is_closed:\n"
  ++ "            self._client = httpx.AsyncClient(\n"
  ++ "                timeout=httpx.Timeout(self.timeout),\n                follow_redirects=True\n"
  ++ "            )\n        return self._client\n\n    async def request(\n        self,\n"
  ++ "        method: str,\n        path: str,\n        query_params: dict[str, Any] | None = None,\n"
  ++ "        body: dict[str, Any] | None = None,\n        headers: dict[str, str] | None = None\n"
  ++ "    ) -> Any:\n        \"\"\"\n        Make an API request.\n\n        Args:\n"
  ++ "            method: HTTP method (GET, POST, PUT, DELETE, etc.)\n"
  ++ "            path: API endpoint path\n            query_params: Optional query parameters\n"
  ++ "            body: Optional request body (will be JSON encoded)\n"
  ++ "            headers: Optional additional headers\n\n        Returns:\n"
  ++ "            Parsed JSON response or raw text\n\n        Raises:\n"
  ++ "            APIError: If the request fails\n        \"\"\"\n"
  ++ "        client = await self._get_client()\n\n        # Build URL\n"
  ++ "        url = f\"\x7bself.base_url\x7d\x7bpath\x7d\"\n        if query_params:\n"
  ++ "            # Filter out None values\n"
  ++ "            filtered_params = \x7bk: v for k, v in query_params.items() if v is not None\x7d\n"
  ++ "            if filtered_params:\n"
  ++ "                url = f\"\x7burl\x7d?\x7burlencode(filtered_params)\x7d\"\n"
  ++ "\n        # Build headers\n        request_headers = \x7b\n"
  ++ "            \"Accept\": \"application/json\",\n            \"Content-Type\": \"application/json\",\n"
  ++ "        \x7d\n\n        # Add auth headers\n"
  ++ "        auth_headers = self.auth_manager.get_auth_headers()\n"
  ++ "        request_headers.update(auth_headers)\n\n        # Add custom headers\n        if headers:\n"
  ++ "            request_headers.update(headers)\n\n        # Make request\n        try:\n"
  ++ "            if body:\n                response = await client.request(\n"
  ++ "                    method=method,\n                    url=url,\n"
  ++ "                    headers=request_headers,\n                    json=body\n                )\n"
  ++ "            else:\n                response = await client.request(\n"
  ++ "                    method=method,\n                    url=url,\n"
  ++ "                    headers=request_headers\n                )\n\n            # Handle response\n"
  ++ "            if response.status_code >= 400:\n                try:\n"
  ++ "                    error_body = response.json()\n                except Exception:\n"
  ++ "                    error_body = response.text\n\n                raise APIError(\n"
  ++ "                    status_code=response.status_code,\n"
  ++ "                    message=f\"Request failed: \x7bresponse.status_code\x7d\",\n"
  ++ "                    response_body=error_body\n                )\n\n            # Parse response\n"
  ++ "            content_type = response.headers.get(\"content-type\", \"\")\n"
  ++ "            if \"application/json\" in content_type:\n                return response.json()\n"
  ++ "            else:\n"
  ++ "                return \x7b\"text\": response.text, \"status_code\": response.status_code\x7d\n"
  ++ "\n        except httpx.TimeoutException as e:\n            raise APIError(\n"
  ++ "                status_code=408,\n                message=f\"Request timed out: \x7bstr(e)\x7d\"\n"
  ++ "            )\n        except httpx.RequestError as e:\n            raise APIError(\n"
  ++ "                status_code=0,\n                message=f\"Request failed: \x7bstr(e)\x7d\"\n"
  ++ "            )\n\n    async def close(self) -> None:\n        \"\"\"Close the HTTP client.\"\"\"\n"
  ++ "        if self._client and not self._client.is_closed:\n            await self._client.aclose()\n"
  ++ "            self._client = None\n"

/-- `MCPGenerator._generate_pyproject_toml` file content. -/
def pyprojectContent (s : ServiceInfo) : String :=
  let sn := serverNameOf s
  "[project]\nname = \""
  ++ sn
  ++ "\"\nversion = \"0.1.0\"\ndescription = \"MCP server for "
  ++ s.name
  ++ " API\"\nreadme = \"README.md\"\nrequires-python = \">=3.10\"\ndependencies = [\n"
  ++ "    \"mcp>=1.0.0\",\n    \"httpx>=0.27.0\",\n]\n\n[project.scripts]\n"
  ++ sn
  ++ " = \""
  ++ moduleNameOf s
  ++ ".server:main\"\n\n[build-system]\nrequires = [\"hatchling\"]\nbuild-backend = \"hatchling.build\"\n"
  ++ "\n[tool.hatch.build.targets.wheel]\npackages = [\""
  ++ moduleNameOf s
  ++ "\"]\n\n[tool.uv]\ndev-dependencies = [\n    \"pytest>=8.0.0\",\n    \"pytest-asyncio>=0.23.0\",\n]\n"

/-- `MCPGenerator._generate_readme` file content. -/
def readmeContent (s : ServiceInfo) : String :=
  let sn := serverNameOf s
  "# "
  ++ sn
  ++ "\n\nMCP (Model Context Protocol) server for the "
  ++ s.name
  ++ " API.\n\n**Base URL:** \x60"
  ++ s.base_url
  ++ "\x60\n\n## Installation\n\n\x60\x60\x60bash\ncd "
  ++ sn
  ++ "\nuv sync\n\x60\x60\x60\n\n"
  ++ authReadmeSection s
  ++ "\n\n## Usage\n\n### Local Installation\n\n#### Claude Desktop\n"
  ++ "\nAdd this to your Claude Desktop configuration file:\n"
  ++ "\n- **macOS**: \x60~/Library/Application Support/Claude/claude_desktop_config.json\x60\n"
  ++ "- **Windows**: \x60%APPDATA%\\Claude\\claude_desktop_config.json\x60\n\n"
  ++ claudeDesktopConfig s
  ++ "\n\n#### Claude Code\n\n\x60\x60\x60bash\nclaude mcp add "
  ++ sn
  ++ " -- uv run --directory /path/to/"
  ++ sn
  ++ " "
  ++ sn
  ++ "\n\x60\x60\x60\n\n### Remote Server\n"
  ++ "\nIf the MCP server is hosted on a remote server, configure the clients to connect via SSE:\n"
  ++ "\n#### Claude Desktop (Remote)\n\n\x60\x60\x60json\n\x7b\n  \"mcpServers\": \x7b\n    \""
  ++ sn
  ++ "\": \x7b\n      \"url\": \"https://your-server.com/"
  ++ sn
  ++ "/sse\"\n    \x7d\n  \x7d\n\x7d\n\x60\x60\x60\n\n#### Claude Code (Remote)\n\n\x60\x60\x60bash\n"
  ++ "claude mcp add "
  ++ sn
  ++ " --transport sse https://your-server.com/"
  ++ sn
  ++ "/sse\n\x60\x60\x60\n\n## Available Tools\n\n"
  ++ readmeToolsSection s
  ++ "\n\n## Development\n\n\x60\x60\x60bash\n# Run the server directly\nuv run "
  ++ sn
  ++ "\n\n# Run tests\nuv run pytest\n\x60\x60\x60\n\n## License\n\nMIT\n"


/-- The `.env.example` lines contributed by one discovered pattern
(`_generate_env_example`). -/
def envExampleAuthLines (P : String) (a : AuthPattern) : List String :=
  [""] ++
  (if a.auth_type = "bearer" then
     [ P ++ "_AUTH_TYPE=bearer", P ++ "_BEARER_TOKEN=your_token_here" ]
   else if a.auth_type = "api_key" then
     [ P ++ "_AUTH_TYPE=api_key", P ++ "_API_KEY=your_api_key_here" ] ++
     (if a.header_name ≠ "" && a.header_name ≠ "X-API-Key" then
        [ P ++ "_API_KEY_HEADER=" ++ a.header_name ]
      else [])
   else if a.auth_type = "custom_header" then
     [ P ++ "_AUTH_TYPE=custom_header",
       P ++ "_CUSTOM_HEADER_NAME=" ++ a.header_name,
       P ++ "_CUSTOM_HEADER_VALUE=your_value_here" ]
   else [])

/-- `MCPGenerator._generate_env_example`. -/
def envExampleContent (s : ServiceInfo) : String :=
  let P := envVarPre s
  let lines :=
    [ "# " ++ serverNameOf s ++ " Configuration",
      "# Copy this file to .env and update with your values",
      "",
      "# Base URL (optional, defaults to discovered URL)",
      "# " ++ P ++ "_BASE_URL=" ++ s.base_url ] ++
    (if s.auth_patterns.isEmpty then
       [ "", "# No authentication was detected in the API calls.",
         "# This API appears to be public." ]
     else (s.auth_patterns.map (envExampleAuthLines P)).flatten) ++
    [ "" ]
  String.intercalate "\n" lines

/-- `MCPGenerator.generate`: the files of the generated package, as
(relative path, content) pairs in their final layout (the Python sources are
moved into the module subdirectory by `_generate_pyproject_toml`). -/
def generateFiles (s : ServiceInfo) (now : String) : List (String × String) :=
  let pkg := moduleNameOf s
  [ (pkg ++ "/server.py", serverPyContent s now),
    (pkg ++ "/__init__.py", initPyContent s),
    (pkg ++ "/auth.py", authPyContent s),
    (pkg ++ "/client.py", clientPyContent s),
    ("pyproject.toml", pyprojectContent s),
    ("README.md", readmeContent s),
    (".env.example", envExampleContent s) ]


/-! ## CLI model (`cli.py`, `create_command`) -/

/-- Outcome of `parse_har_file` in `create_command`: the `open`/`json.load`
of `HARParser.load` either raises `FileNotFoundError`, raises
`json.JSONDecodeError`, or yields a parsed `ServiceInfo`. -/
inductive LoadOutcome where
  | fileNotFound
  | invalidJson
  | loaded (s : ServiceInfo)

/-- Outcome of `generate_mcp_server`: any exception, or the server directory. -/
inductive GenOutcome where
  | genFailed
  | generated (dir : String)

/-- The `--name` override of `create_command`: a provided name has an
`iblai-` prefix stripped and replaces the derived service name. -/
def applyNameOverride (nameArg : Option String) (s : ServiceInfo) : ServiceInfo :=
  match nameArg with
  | none => s
  | some n => { s with name := if strHasPre "iblai-" n then strDrop n 6 else n }

/-- `cli.create_command`, with the file-system effects abstracted into the two
outcome values.  Returns (exit code, whether the pipeline proceeded past input
loading — i.e. whether `generate_mcp_server`, the only writer of artifact
files, was invoked). -/
def create_command (_nameArg : Option String) (load : LoadOutcome) (gen : GenOutcome) :
    Nat × Bool :=
  match load with
  | LoadOutcome.fileNotFound => (1, false)
  | LoadOutcome.invalidJson => (1, false)
  | LoadOutcome.loaded _ =>
    match gen with
    | GenOutcome.genFailed => (1, true)
    | GenOutcome.generated _ => (0, true)

/-! ## Definitions used only to state the claims -/

/-- The record-relevance predicate actually applied by `HARParser.parse`
before an entry can contribute an endpoint. -/
def relevantEntry (e : HarEntry) : Bool :=
  !(is_static_resource e.request.url) && is_api_call e.request.url e.request.headers

/-- Modelled from the spec's words (for comparison with `relevantEntry`):
"reject if static; otherwise accept if the path contains `/api/`, `/v1/` or
`/v2/`, OR either the request's `Accept` header or the request **or response**
`Content-Type` header declares a JSON media type."  The response-header
disjunct is the part the source does not implement. -/
def specClaimedRelevant (e : HarEntry) : Bool :=
  let path := pyLower (urlparse e.request.url).path
  ¬ is_static_resource e.request.url &&
  (strContains path "/api/" || strContains path "/v1/" || strContains path "/v2/" ||
   e.request.headers.any (fun h =>
     pyLower h.name = "accept" && strContains (pyLower h.value) "application/json") ||
   e.request.headers.any (fun h =>
     pyLower h.name = "content-type" && strContains (pyLower h.value) "application/json") ||
   e.response.headers.any (fun h =>
     pyLower h.name = "content-type" && strContains (pyLower h.value) "application/json"))

/-- Erase from an endpoint every field the generator never reads — in
particular `headers` (where `_normalize_headers` retains raw credential
values, since `authorization` is not in `SKIP_HEADERS`) and `full_url`. -/
def scrubEndpoint (e : APIEndpoint) : APIEndpoint :=
  { e with full_url := "", headers := [], response_example := none,
           response_status := 0, content_type := "", description := "" }

/-- Erase from an auth pattern the fields the generator never reads (its
masked example value and location). -/
def scrubAuth (a : AuthPattern) : AuthPattern :=
  { a with example_value := "", location := "" }

/-- Erase from a service model every field the generated artifacts may not
depend on. -/
def scrubServiceInfo (s : ServiceInfo) : ServiceInfo :=
  { s with description := "",
           auth_patterns := s.auth_patterns.map scrubAuth,
           endpoints := s.endpoints.map scrubEndpoint }

/-! ## Concrete traces used by the claim theorems -/

/-- `GET https://aaa.com/api/x` (first of the two-host trace). -/
def entryHostA : HarEntry := { request := { url := "https://aaa.com/api/x" }, response := {} }

/-- `GET https://bbb.com/api/x` (second of the two-host trace). -/
def entryHostB : HarEntry := { request := { url := "https://bbb.com/api/x" }, response := {} }

/-- `GET https://h.com/api/items?page=1`. -/
def entryPage : HarEntry := { request := { url := "https://h.com/api/items?page=1" }, response := {} }

/-- `GET https://h.com/api/items?search=foo`. -/
def entrySearch : HarEntry :=
  { request := { url := "https://h.com/api/items?search=foo" }, response := {} }

/-- A record with no API path segment and no JSON request header, whose
*response* declares a JSON content type. -/
def entryRespJson : HarEntry :=
  { request := { url := "https://h.com/things" },
    response := { headers := [⟨"Content-Type", "application/json"⟩] } }

/-- A `.png` record whose request declares a JSON content type. -/
def entryPng : HarEntry :=
  { request := { url := "https://h.com/pic.png",
                 headers := [⟨"Content-Type", "application/json"⟩] },
    response := {} }

/-- A record carrying `Authorization: Bearer abc123`. -/
def entryBearer : HarEntry :=
  { request := { url := "https://h.com/api/x",
                 headers := [⟨"Authorization", "Bearer abc123"⟩] },
    response := {} }

/-- The endpoint resulting from merging `entryPage` and `entrySearch`. -/
def endpointItems : APIEndpoint :=
  { method := "GET", path := "/api/items", base_url := "https://h.com",
    full_url := "https://h.com/api/items?page=1",
    query_params :=
      [ { name := "page", param_type := "query", example_value := PyVal.vstr "1",
          required := false, description := "Query parameter: page" },
        { name := "search", param_type := "query", example_value := PyVal.vstr "foo",
          required := false, description := "Query parameter: search" } ],
    path_params := [], headers := [], request_body := none,
    response_example := none, response_status := 200,
    content_type := "application/json", description := "" }

/-- A response body with 20 object keys. -/
def respTwentyKeys : HarResponse :=
  { content := some { text := "x", mimeType := "application/json",
                      textJson := some (JValue.jobj ((List.range 20).map
                        (fun i => ("k" ++ toString i, JValue.jnum i)))) } }

/-- A response body nested five objects deep. -/
def respNestedFive : HarResponse :=
  { content := some { text := "x", mimeType := "application/json",
                      textJson := some (JValue.jobj [("a", JValue.jobj [("a", JValue.jobj [("a",
                        JValue.jobj [("a", JValue.jobj [("a", JValue.jnum 1)])])])])]) } }

/-! ## Claim theorems -/

/-! ### Invariant of the `parse` fold (shared by the aggregation claims) -/

theorem dictGet_none_forall {α} {l : List (String × α)} {k : String}
    (h : dictGet l k = none) : ∀ p ∈ l, p.1 ≠ k := by
  induction l with
  | nil => intro p hp; cases hp
  | cons a t ih =>
    intro p hp
    rw [dictGet] at h
    by_cases hk : a.1 = k
    · simp [hk] at h
    · rcases hp with _ | hp
      · simpa using hk
      · exact ih (by simpa [hk] using h) p (by assumption)

theorem fst_dictUpdate {α} (l : List (String × α)) (k : String) (f : α → α) :
    (dictUpdate l k f).map Prod.fst = l.map Prod.fst := by
  induction l with
  | nil => rfl
  | cons a t ih =>
    rw [dictUpdate]
    by_cases hk : a.1 = k <;> simp [hk, ih]

theorem mem_dictUpdate {α} {l : List (String × α)} {k : String} {f : α → α}
    {p : String × α} (h : p ∈ dictUpdate l k f) :
    p ∈ l ∨ ∃ q ∈ l, p = (q.1, f q.2) := by
  induction l with
  | nil => cases h
  | cons a t ih =>
    rw [dictUpdate] at h
    by_cases hk : a.1 = k
    · rw [if_pos hk] at h
      rcases List.mem_cons.mp h with hp | hp
      · exact Or.inr ⟨a, List.mem_cons_self a t, by rw [hp]⟩
      · exact Or.inl (List.mem_cons_of_mem a hp)
    · rw [if_neg hk] at h
      rcases List.mem_cons.mp h with hp | hp
      · exact Or.inl (by rw [hp]; exact List.mem_cons_self a t)
      · rcases ih hp with h' | ⟨q, hq, hpq⟩
        · exact Or.inl (List.mem_cons_of_mem a h')
        · exact Or.inr ⟨q, List.mem_cons_of_mem a hq, hpq⟩

theorem extract_query_params_not_skipped {url : String} {p : RequestParam}
    (h : p ∈ extract_query_params url) : isSkippedQueryName p.name = false := by
  rw [extract_query_params] at h
  rcases List.mem_filterMap.mp h with ⟨kv, _, heq⟩
  by_cases hs : isSkippedQueryName kv.1
  · simp [hs] at heq
  · simp only [hs, if_neg, Bool.not_eq_true] at heq
    have : p.name = kv.1 := by
      cases heq
      rfl
    rw [this]
    exact Bool.not_eq_true _ ▸ (by simpa using hs)

/-- The invariant maintained over the endpoint dict: keys are pairwise
distinct, each key is the stored endpoint's aggregation key, and no stored
query parameter has a framework-filtered name. -/
def EndpointsInv (l : List (String × APIEndpoint)) : Prop :=
  l.Pairwise (fun a b => a.1 ≠ b.1) ∧
  (∀ p ∈ l, p.1 = epKey p.2) ∧
  (∀ p ∈ l, ∀ q ∈ p.2.query_params, isSkippedQueryName q.name = false)

theorem pairwise_fst_iff {α} {l : List (String × α)} :
    l.Pairwise (fun a b => a.1 ≠ b.1) ↔ (l.map Prod.fst).Pairwise Ne := by
  rw [List.pairwise_map]

theorem endpoints_step_inv (l : List (String × APIEndpoint)) (key : String)
    (ep : APIEndpoint) (qps : List RequestParam)
    (hkey : key = epKey ep)
    (hq : ∀ q ∈ ep.query_params, isSkippedQueryName q.name = false)
    (hq2 : ∀ q ∈ qps, isSkippedQueryName q.name = false)
    (h : EndpointsInv l) :
    EndpointsInv (match dictGet l key with
      | some _ => dictUpdate l key (fun ex => mergeQueryParams ex qps)
      | none => l ++ [(key, ep)]) := by
  obtain ⟨h1, h2, h3⟩ := h
  cases hget : dictGet l key with
  | some v =>
    simp only []
    refine ⟨?_, ?_, ?_⟩
    · rw [pairwise_fst_iff, fst_dictUpdate]
      exact pairwise_fst_iff.mp h1
    · intro p hp
      rcases mem_dictUpdate hp with hp' | ⟨q, hqmem, rfl⟩
      · exact h2 p hp'
      · exact h2 q hqmem
    · intro p hp q hqmem
      rcases mem_dictUpdate hp with hp' | ⟨r, hr, rfl⟩
      · exact h3 p hp' q hqmem
      · rcases List.mem_append.mp hqmem with hq' | hq'
        · exact h3 r hr q hq'
        · exact hq2 q (List.mem_of_mem_filter hq')
  | none =>
    simp only []
    refine ⟨?_, ?_, ?_⟩
    · rw [List.pairwise_append]
      refine ⟨h1, List.pairwise_singleton _ _, ?_⟩
      intro a ha b hb
      rcases List.mem_singleton.mp hb with rfl
      exact dictGet_none_forall hget a ha
    · intro p hp
      rcases List.mem_append.mp hp with hp' | hp'
      · exact h2 p hp'
      · rcases List.mem_singleton.mp hp' with rfl
        exact hkey
    · intro p hp q hqmem
      rcases List.mem_append.mp hp with hp' | hp'
      · exact h3 p hp' q hqmem
      · rcases List.mem_singleton.mp hp' with rfl
        exact hq q hqmem

theorem processEntry_inv {st : ParseState} {e : HarEntry}
    (h : EndpointsInv st.endpoints) : EndpointsInv (processEntry st e).endpoints := by
  rw [processEntry]
  split
  · exact h
  · split
    · exact h
    · exact endpoints_step_inv _ _ _ _ rfl
        (fun q hq => extract_query_params_not_skipped hq)
        (fun q hq => extract_query_params_not_skipped hq) h

theorem foldl_processEntry_inv (entries : List HarEntry) :
    ∀ st : ParseState, EndpointsInv st.endpoints →
      EndpointsInv ((entries.foldl processEntry st).endpoints) := by
  induction entries with
  | nil => intro st h; exact h
  | cons e t ih => intro st h; exact ih _ (processEntry_inv h)

theorem parse_endpoints_inv (perm : List String → List String) (entries : List HarEntry) :
    ((parse perm entries).endpoints).Pairwise (fun a b => epKey a ≠ epKey b) ∧
    (∀ ep ∈ (parse perm entries).endpoints,
       ∀ q ∈ ep.query_params, isSkippedQueryName q.name = false) := by
  have hinv := foldl_processEntry_inv entries {} ⟨List.Pairwise.nil, by simp, by simp⟩
  obtain ⟨h1, h2, h3⟩ := hinv
  constructor
  · rw [show (parse perm entries).endpoints =
        ((entries.foldl processEntry {}).endpoints).map (fun kv => kv.2) from rfl]
    rw [List.pairwise_map]
    have : ((entries.foldl processEntry {}).endpoints).Pairwise
        (fun a b => epKey a.2 ≠ epKey b.2) := by
      refine h1.imp_of_mem ?_
      intro a b ha hb hne
      rw [← h2 a ha, ← h2 b hb]
      exact hne
    exact this
  · intro ep hep q hq
    rcases List.mem_map.mp hep with ⟨kv, hkv, rfl⟩
    exact h3 kv hkv q hq

/-- C2 counterexample: on a trace with the same method and path observed on
two different hosts, the parser produces two endpoints with the same HTTP
method and the same normalized path — the pair (method, normalized path) is
not unique in the resulting model. -/
theorem c2_counterexample :
    ((parse id [entryHostA, entryHostB]).endpoints.map (fun e => (e.method, e.path))) =
      [("GET", "/api/x"), ("GET", "/api/x")] ∧
    (parse id [entryHostA, entryHostB]).endpoints.length = 2 := by
  exact ⟨by decide, by decide⟩

/-- C2 (amended): what is unique within a ServiceModel is the aggregation key
`method + ":" + base_url + normalized_path` — no two endpoints share method,
base URL and normalized path together, and repeated observations of the same
key merge into one endpoint; endpoints with equal method and normalized path
but different base URLs remain distinct. -/
theorem c2_key_uniqueness (perm : List String → List String) (entries : List HarEntry) :
    ((parse perm entries).endpoints).Pairwise
      (fun a b => a.method ++ ":" ++ a.base_url ++ a.path ≠
                  b.method ++ ":" ++ b.base_url ++ b.path) := by
  exact (parse_endpoints_inv perm entries).1

/-- C9: query parameters whose name starts with an underscore or is exactly
`rsc`, `callback` or `jsonp` are silently dropped: they never enter an
extracted query-parameter list, and no endpoint of any parsed trace carries
such a parameter (hence none can reach any generated schema, handler or
documentation, which are built from the endpoints' parameter lists). -/
theorem c9_framework_params_excluded :
    (∀ (url : String) (p : RequestParam), p ∈ extract_query_params url →
       strHasPre "_" p.name = false ∧ p.name ≠ "rsc" ∧
       p.name ≠ "callback" ∧ p.name ≠ "jsonp") ∧
    (∀ (url name : String), isSkippedQueryName name = true →
       name ∉ (extract_query_params url).map (fun p => p.name)) ∧
    (∀ (perm : List String → List String) (entries : List HarEntry)
       (ep : APIEndpoint) (q : RequestParam),
       ep ∈ (parse perm entries).endpoints → q ∈ ep.query_params →
       strHasPre "_" q.name = false ∧ q.name ≠ "rsc" ∧
       q.name ≠ "callback" ∧ q.name ≠ "jsonp") := by
  have hiff : ∀ n : String, isSkippedQueryName n = false ↔
      (strHasPre "_" n = false ∧ n ≠ "rsc" ∧ n ≠ "callback" ∧ n ≠ "jsonp") := by
    intro n
    simp [isSkippedQueryName, and_assoc]
  refine ⟨?_, ?_, ?_⟩
  · intro url p hp
    exact (hiff p.name).mp (extract_query_params_not_skipped hp)
  · intro url name hskip hmem
    rcases List.mem_map.mp hmem with ⟨p, hp, rfl⟩
    rw [extract_query_params_not_skipped hp] at hskip
    cases hskip
  · intro perm entries ep q hep hq
    exact (hiff q.name).mp ((parse_endpoints_inv perm entries).2 ep hep q hq)

/-- Witness for C9 at a concrete URL: in
`https://h.com/api/items?page=1&_v=2&rsc=x` only `page` survives, and it is
not framework-filtered. -/
theorem c9_witness :
    strHasPre "_" "page" = false ∧ "page" ≠ "rsc" ∧
    "page" ≠ "callback" ∧ "page" ≠ "jsonp" := by
  have h := c9_framework_params_excluded.1 "https://h.com/api/items?page=1&_v=2&rsc=x"
    { name := "page", param_type := "query", example_value := PyVal.vstr "1",
      required := false, description := "Query parameter: page" } (by decide)
  simpa using h

/-! ### Non-interference of the generated artifacts (shared by C1) -/

theorem map_after_map {α β} (f : α → α) (g : α → β) (hfg : ∀ a, g (f a) = g a) :
    ∀ l : List α, (l.map f).map g = l.map g := by
  intro l
  induction l with
  | nil => rfl
  | cons a t ih => simp only [List.map_cons, hfg, ih]

theorem scrub_name (s : ServiceInfo) : (scrubServiceInfo s).name = s.name := rfl

theorem scrub_base_url (s : ServiceInfo) : (scrubServiceInfo s).base_url = s.base_url := rfl

theorem scrub_auth_patterns (s : ServiceInfo) :
    (scrubServiceInfo s).auth_patterns = s.auth_patterns.map scrubAuth := rfl

theorem scrub_endpoints (s : ServiceInfo) :
    (scrubServiceInfo s).endpoints = s.endpoints.map scrubEndpoint := rfl

theorem serverNameOf_scrub (s : ServiceInfo) :
    serverNameOf (scrubServiceInfo s) = serverNameOf s := rfl

theorem moduleNameOf_scrub (s : ServiceInfo) :
    moduleNameOf (scrubServiceInfo s) = moduleNameOf s := rfl

theorem envVarPre_scrub (s : ServiceInfo) :
    envVarPre (scrubServiceInfo s) = envVarPre s := rfl

theorem toolsListItemOf_scrub (e : APIEndpoint) :
    toolsListItemOf (scrubEndpoint e) = toolsListItemOf e := rfl

theorem toolCodeOf_scrub (e : APIEndpoint) :
    toolCodeOf (scrubEndpoint e) = toolCodeOf e := rfl

theorem readmeToolDoc_scrub (e : APIEndpoint) :
    readmeToolDoc (scrubEndpoint e) = readmeToolDoc e := rfl

theorem authTableRows_scrub (P : String) (a : AuthPattern) :
    authTableRows P (scrubAuth a) = authTableRows P a := rfl

theorem authExampleLines_scrub (P : String) (a : AuthPattern) :
    authExampleLines P (scrubAuth a) = authExampleLines P a := rfl

theorem envExampleAuthLines_scrub (P : String) (a : AuthPattern) :
    envExampleAuthLines P (scrubAuth a) = envExampleAuthLines P a := rfl

theorem toolsListItems_scrub (s : ServiceInfo) :
    toolsListItems (scrubServiceInfo s) = toolsListItems s := by
  unfold toolsListItems
  rw [scrub_endpoints, map_after_map scrubEndpoint toolsListItemOf toolsListItemOf_scrub]

theorem toolsCodeOf_scrub (s : ServiceInfo) :
    toolsCodeOf (scrubServiceInfo s) = toolsCodeOf s := by
  unfold toolsCodeOf
  rw [scrub_endpoints, map_after_map scrubEndpoint toolCodeOf toolCodeOf_scrub]

theorem readmeToolsSection_scrub (s : ServiceInfo) :
    readmeToolsSection (scrubServiceInfo s) = readmeToolsSection s := by
  unfold readmeToolsSection
  rw [scrub_endpoints, map_after_map scrubEndpoint readmeToolDoc readmeToolDoc_scrub]

theorem authReadmeSection_scrub (s : ServiceInfo) :
    authReadmeSection (scrubServiceInfo s) = authReadmeSection s := by
  unfold authReadmeSection
  rw [scrub_auth_patterns, envVarPre_scrub, scrub_base_url]
  cases s.auth_patterns with
  | nil => rfl
  | cons a t =>
    simp only [List.map_cons, List.isEmpty_cons]
    rw [show List.map (authTableRows (envVarPre s)) (List.map scrubAuth t) =
          List.map (authTableRows (envVarPre s)) t from
        map_after_map scrubAuth (authTableRows (envVarPre s))
          (authTableRows_scrub (envVarPre s)) t]
    rw [authTableRows_scrub, authExampleLines_scrub]
    rfl

theorem claudeDesktopConfig_scrub (s : ServiceInfo) :
    claudeDesktopConfig (scrubServiceInfo s) = claudeDesktopConfig s := by
  unfold claudeDesktopConfig
  rw [scrub_auth_patterns]
  cases s.auth_patterns with
  | nil => rfl
  | cons a t => rfl

theorem envExampleContent_scrub (s : ServiceInfo) :
    envExampleContent (scrubServiceInfo s) = envExampleContent s := by
  unfold envExampleContent
  rw [scrub_auth_patterns, envVarPre_scrub, scrub_base_url, serverNameOf_scrub]
  cases s.auth_patterns with
  | nil => rfl
  | cons a t =>
    simp only [List.map_cons, List.isEmpty_cons]
    rw [show List.map (envExampleAuthLines (envVarPre s)) (List.map scrubAuth t) =
          List.map (envExampleAuthLines (envVarPre s)) t from
        map_after_map scrubAuth (envExampleAuthLines (envVarPre s))
          (envExampleAuthLines_scrub (envVarPre s)) t]
    rw [envExampleAuthLines_scrub]

theorem serverPyContent_scrub (s : ServiceInfo) (now : String) :
    serverPyContent (scrubServiceInfo s) now = serverPyContent s now := by
  unfold serverPyContent
  rw [toolsListItems_scrub, toolsCodeOf_scrub, serverNameOf_scrub, scrub_name,
      scrub_base_url, envVarPre_scrub]

theorem readmeContent_scrub (s : ServiceInfo) :
    readmeContent (scrubServiceInfo s) = readmeContent s := by
  unfold readmeContent
  rw [authReadmeSection_scrub, claudeDesktopConfig_scrub, readmeToolsSection_scrub,
      serverNameOf_scrub, scrub_name, scrub_base_url]

theorem initPyContent_scrub (s : ServiceInfo) :
    initPyContent (scrubServiceInfo s) = initPyContent s := rfl

theorem authPyContent_scrub (s : ServiceInfo) :
    authPyContent (scrubServiceInfo s) = authPyContent s := rfl

theorem clientPyContent_scrub (s : ServiceInfo) :
    clientPyContent (scrubServiceInfo s) = clientPyContent s := rfl

theorem pyprojectContent_scrub (s : ServiceInfo) :
    pyprojectContent (scrubServiceInfo s) = pyprojectContent s := rfl

/-- The generated artifacts depend only on the scrubbed projection of the
service model: the per-endpoint raw header map (where `_normalize_headers`
retains credential-bearing values), the raw full URL, the response fields,
and the auth patterns\x27 example values never reach any artifact text. -/
theorem generateFiles_scrub (s : ServiceInfo) (now : String) :
    generateFiles (scrubServiceInfo s) now = generateFiles s now := by
  unfold generateFiles
  rw [serverPyContent_scrub, readmeContent_scrub, envExampleContent_scrub,
      initPyContent_scrub, authPyContent_scrub, clientPyContent_scrub,
      pyprojectContent_scrub, moduleNameOf_scrub]

/-- C1: (i) every auth pattern ever emitted carries one of the three fixed
placeholders as its example value, never the credential; (ii) a recognized
authentication header yields a pattern whose example value is exactly
`Bearer <token>` when the header value starts with `Bearer `
case-insensitively and exactly `<api_key>` otherwise; (iii) the generated
artifact text is invariant under erasing the fields where raw header values
are retained (the endpoints\x27 normalized header maps and full URLs, and the
auth patterns\x27 example values), so the literal credential never appears in
any generated artifact; (iv) concretely, `Authorization: Bearer abc123`
yields exactly the masked bearer pattern. -/
theorem c1_auth_masking_no_leak :
    (∀ (hdrs : List Header) (p : AuthPattern), p ∈ extract_auth_patterns hdrs →
       p.example_value = "Bearer <token>" ∨ p.example_value = "<api_key>" ∨
       p.example_value = "<session_cookie>") ∧
    (∀ (hdrs : List Header) (h : Header) (tag : String), h ∈ hdrs →
       dictGet AUTH_HEADERS (pyLower h.name) = some tag →
       ({ auth_type := tag, header_name := h.name,
          example_value := if strHasPre "bearer " (pyLower h.value) then
            "Bearer <token>" else "<api_key>",
          location := "header" } : AuthPattern) ∈ extract_auth_patterns hdrs) ∧
    (∀ (s : ServiceInfo) (now : String),
       generateFiles (scrubServiceInfo s) now = generateFiles s now) ∧
    (parse id [entryBearer]).auth_patterns =
      [{ auth_type := "bearer", header_name := "Authorization",
         example_value := "Bearer <token>", location := "header" }] := by
  refine ⟨?_, ?_, generateFiles_scrub, by decide⟩
  · intro hdrs p hp
    rw [extract_auth_patterns] at hp
    rcases List.mem_append.mp hp with hp' | hp'
    · rcases List.mem_filterMap.mp hp' with ⟨h, _, heq⟩
      cases hdg : dictGet AUTH_HEADERS (pyLower h.name) with
      | none => rw [hdg] at heq; cases heq
      | some tag =>
        rw [hdg] at heq
        cases heq
        by_cases hb : strHasPre "bearer " (pyLower h.value) = true
        · exact Or.inl (by simp [maskAuthValue, hb])
        · exact Or.inr (Or.inl (by simp [maskAuthValue, hb]))
    · by_cases hc : hdrs.any isAuthCookieHeader = true
      · rw [if_pos hc] at hp'
        rcases List.mem_singleton.mp hp' with rfl
        exact Or.inr (Or.inr rfl)
      · rw [if_neg hc] at hp'
        cases hp'
  · intro hdrs h tag hmem htag
    apply List.mem_append_left
    apply List.mem_filterMap.mpr
    refine ⟨h, hmem, ?_⟩
    rw [htag, maskAuthValue]

/-- Witness for C1 at the concrete header `Authorization: Bearer abc123`:
the derived pattern is the fully masked bearer pattern. -/
theorem c1_witness :
    ({ auth_type := "bearer", header_name := "Authorization",
       example_value := "Bearer <token>", location := "header" } : AuthPattern) ∈
      extract_auth_patterns [⟨"Authorization", "Bearer abc123"⟩] := by
  have h := c1_auth_masking_no_leak.2.1 [⟨"Authorization", "Bearer abc123"⟩]
    ⟨"Authorization", "Bearer abc123"⟩ "bearer" (by decide) (by decide)
  simpa using h

/-- C3 (code bug): on `/a/1/b/2` the numeric-ID pass garbles the template —
the second replacement is spliced at offsets computed before the first
replacement lengthened the string, yielding `/a/{id/{id_1}b/2` instead of the
claimed `/a/{id}/b/{id_1}` — while the claim's single-identifier examples
`/courses/12/modules` and `/courses/77/modules` do normalize to
`/courses/{id}/modules` with one parameter named `id` whose example value is
the matched text. -/
theorem c3_path_normalization_stale_offsets :
    extract_path_params "/a/1/b/2" =
      ("/a/\x7bid/\x7bid_1\x7db/2",
       [ { name := "id", param_type := "path", example_value := PyVal.vstr "1",
           required := true, description := "Numeric identifier" },
         { name := "id_1", param_type := "path", example_value := PyVal.vstr "2",
           required := true, description := "Numeric identifier" } ]) ∧
    extract_path_params "/courses/12/modules" =
      ("/courses/\x7bid\x7d/modules",
       [ { name := "id", param_type := "path", example_value := PyVal.vstr "12",
           required := true, description := "Numeric identifier" } ]) ∧
    extract_path_params "/courses/77/modules" =
      ("/courses/\x7bid\x7d/modules",
       [ { name := "id", param_type := "path", example_value := PyVal.vstr "77",
           required := true, description := "Numeric identifier" } ]) := by
  refine ⟨?_, ?_, ?_⟩ <;> decide

/-- C4: response-example truncation as specified — depth 0 collapses to the
`truncated` marker; a positive depth keeps exactly the first (at most 10)
keys, recursing one level shallower into mapping values and cutting sequence
values longer than 2 to their first 2; consequently a 20-key response object
yields an example with exactly its first 10 keys and no marker at depth 0,
and a response nested 5 objects deep yields the marker at depth 3. -/
theorem c4_truncation :
    (∀ kvs : List (String × JValue),
       truncate_response 0 kvs = [("...", JValue.jstr "truncated")]) ∧
    (∀ (d : Nat) (kvs : List (String × JValue)),
       (truncate_response (d + 1) kvs).length ≤ 10) ∧
    (∀ (d : Nat) (kvs : List (String × JValue)),
       (truncate_response (d + 1) kvs).map Prod.fst = (kvs.map Prod.fst).take 10) ∧
    (∀ (d : Nat) (k : String) (l : List JValue),
       truncate_response (d + 1) [(k, JValue.jarr l)] =
         [(k, JValue.jarr (if l.length > 2 then l.take 2 else l))]) ∧
    extract_response_example respTwentyKeys =
      some (JValue.jobj (((List.range 20).map
        (fun i => ("k" ++ toString i, JValue.jnum i))).take 10)) ∧
    extract_response_example respNestedFive =
      some (JValue.jobj [("a", JValue.jobj [("a", JValue.jobj [("a",
        JValue.jobj [("...", JValue.jstr "truncated")])])])]) := by
  refine ⟨fun kvs => rfl, ?_, ?_, fun d k l => rfl, rfl, rfl⟩
  · intro d kvs
    simp only [truncate_response, List.length_map, List.length_take]
    omega
  · intro d kvs
    simp only [truncate_response, List.map_map, ← List.map_take]
    rfl

/-- C5: merging a repeated observation into an existing endpoint appends only
the query parameters whose names are not already present and leaves every
other field — path parameters, request body, response example, and each
already-present query parameter (hence its first example value and required
flag) — unchanged; concretely, `?page=1` followed by `?search=foo` on the
same normalized endpoint yields one endpoint exposing both `page` and
`search`, with `page`'s first-observed example value. -/
theorem c5_merge_frame :
    (∀ (ex : APIEndpoint) (qs : List RequestParam),
       (mergeQueryParams ex qs).method = ex.method ∧
       (mergeQueryParams ex qs).path = ex.path ∧
       (mergeQueryParams ex qs).base_url = ex.base_url ∧
       (mergeQueryParams ex qs).full_url = ex.full_url ∧
       (mergeQueryParams ex qs).path_params = ex.path_params ∧
       (mergeQueryParams ex qs).request_body = ex.request_body ∧
       (mergeQueryParams ex qs).response_example = ex.response_example ∧
       (mergeQueryParams ex qs).headers = ex.headers ∧
       (mergeQueryParams ex qs).query_params =
         ex.query_params ++ qs.filter (fun p =>
           ¬ (ex.query_params.map (fun q => q.name)).contains p.name)) ∧
    (parse id [entryPage, entrySearch]).endpoints = [endpointItems] := by
  exact ⟨fun ex qs => ⟨rfl, rfl, rfl, rfl, rfl, rfl, rfl, rfl, rfl⟩, rfl⟩

/-- C6 counterexample: a record with no API path segment and no JSON request
header, whose *response* `Content-Type` declares JSON, satisfies the claim's
acceptance predicate but is rejected by the code (the classifier never sees
response headers) and produces no endpoint. -/
theorem c6_counterexample :
    specClaimedRelevant entryRespJson = true ∧
    relevantEntry entryRespJson = false ∧
    (parse id [entryRespJson]).endpoints = [] := by
  refine ⟨by decide, by decide, rfl⟩

/-- C6 (amended): the classifier applies its rules in order — a static-asset
path is rejected regardless of any content type (a `.png` path with a JSON
request content type still yields no endpoint) — and otherwise a record is
accepted iff its path contains `/api/`, `/v1/` or `/v2/`, or the *request's*
`Accept` or `Content-Type` header declares a JSON media type; the response
`Content-Type` plays no part. -/
theorem c6_classifier_amended :
    (∀ e : HarEntry,
       relevantEntry e =
         (!(is_static_resource e.request.url) &&
          (strContains (pyLower (urlparse e.request.url).path) "/api/" ||
           strContains (pyLower (urlparse e.request.url).path) "/v1/" ||
           strContains (pyLower (urlparse e.request.url).path) "/v2/" ||
           e.request.headers.any (fun h =>
             pyLower h.name = "accept" &&
             strContains (pyLower h.value) "application/json") ||
           e.request.headers.any (fun h =>
             pyLower h.name = "content-type" &&
             strContains (pyLower h.value) "application/json")))) ∧
    is_api_call entryPng.request.url entryPng.request.headers = true ∧
    relevantEntry entryPng = false ∧
    (parse id [entryPng]).endpoints = [] := by
  refine ⟨fun e => rfl, by decide, by decide, rfl⟩

/-- C7 (code bug): the service name and primary base URL are drawn from the
enumeration of a Python `set` of hosts, so they depend on the set's
hash-dependent enumeration order (modelled by the `perm` parameter): on the
same two-host trace, one enumeration order yields service name `aaa` with
base URL `https://aaa.com`, the reversed order yields `bbb` with
`https://bbb.com` — contradicting the claim that two runs always derive the
same name and base URL. -/
theorem c7_host_order_dependence :
    (parse id [entryHostA, entryHostB]).name = "aaa" ∧
    (parse List.reverse [entryHostA, entryHostB]).name = "bbb" ∧
    (parse id [entryHostA, entryHostB]).base_url = "https://aaa.com" ∧
    (parse List.reverse [entryHostA, entryHostB]).base_url = "https://bbb.com" := by
  refine ⟨?_, ?_, ?_, ?_⟩ <;> rfl

/-- C8: `create_command` exits with code 1 on a missing trace file or invalid
JSON, and exactly in those cases the pipeline does not proceed past input
loading (the generator — the only artifact writer — is never invoked); a run
whose load and generation both succeed exits with code 0. -/
theorem c8_create_exit_codes :
    (∀ (nameArg : Option String) (gen : GenOutcome),
       create_command nameArg LoadOutcome.fileNotFound gen = (1, false)) ∧
    (∀ (nameArg : Option String) (gen : GenOutcome),
       create_command nameArg LoadOutcome.invalidJson gen = (1, false)) ∧
    (∀ (nameArg : Option String) (load : LoadOutcome) (gen : GenOutcome),
       (create_command nameArg load gen).2 = false ↔
         (load = LoadOutcome.fileNotFound ∨ load = LoadOutcome.invalidJson)) ∧
    (∀ (nameArg : Option String) (s : ServiceInfo) (dir : String),
       create_command nameArg (LoadOutcome.loaded s) (GenOutcome.generated dir) = (0, true)) := by
  refine ⟨fun _ _ => rfl, fun _ _ => rfl, ?_, fun _ _ _ => rfl⟩
  intro nameArg load gen
  cases load with
  | fileNotFound => simp [create_command]
  | invalidJson => simp [create_command]
  | loaded s => cases gen <;> simp [create_command]

/-- C10: every pattern derived from an `Authorization` header carries the
scheme tag `bearer` — the tag comes from the header-name table alone — with
the example value masked from the value's prefix alone; in particular
`Authorization: Basic dXNlcg==` yields the tag `bearer` with masked example
`<api_key>`. -/
theorem c10_authorization_always_bearer :
    (∀ (hdrs : List Header) (h : Header), h ∈ hdrs → pyLower h.name = "authorization" →
       ({ auth_type := "bearer", header_name := h.name,
          example_value := maskAuthValue h.value, location := "header" } : AuthPattern) ∈
         extract_auth_patterns hdrs) ∧
    extract_auth_patterns [⟨"Authorization", "Basic dXNlcg=="⟩] =
      [{ auth_type := "bearer", header_name := "Authorization",
         example_value := "<api_key>", location := "header" }] := by
  constructor
  · intro hdrs h hmem hname
    apply List.mem_append_left
    apply List.mem_filterMap.mpr
    refine ⟨h, hmem, ?_⟩
    rw [hname]
    rfl
  · decide


/-- Witness for C10 at the concrete header `Authorization: Bearer xyz`. -/
theorem c10_witness :
    ({ auth_type := "bearer", header_name := "Authorization",
       example_value := maskAuthValue "Bearer xyz", location := "header" } : AuthPattern) ∈
      extract_auth_patterns [⟨"Authorization", "Bearer xyz"⟩] := by
  exact c10_authorization_always_bearer.1 [⟨"Authorization", "Bearer xyz"⟩]
    ⟨"Authorization", "Bearer xyz"⟩ (by decide) (by decide)

end MCP
